import Mathlib

/-!
# Shallow embedding of the nexus-banking-platform transfer core

This file embeds the fund-transfer workflow of the banking API
(`src/internal/service/transfer.py`, `src/internal/service/account.py`,
`src/internal/repos/transfer.py`, `src/internal/repos/account.py`,
`src/internal/models/transfer.py`, `src/internal/models/account.py`)
into Lean and proves the specified properties of the workflow.

Modelling decisions:
* UUIDs are modelled as `Nat`; the `get_uuid()` calls of the source are passed
  in as explicit parameters (`newId`, ...), with freshness stated as a
  hypothesis where the source relies on UUID uniqueness.
* Monetary amounts (`Decimal`/`float` in the source) are modelled as `ℚ`.
* The SQLAlchemy session is modelled as a pair of database snapshots:
  `committed` (what the database holds) and `current` (the session's view
  including uncommitted changes).  `session.commit()` copies `current` into
  `committed` (and records the snapshot in a history `log`, so that temporal
  properties about intermediate committed states can be stated);
  `session.rollback()` copies `committed` back into `current`.
  Crucially, each repository method of the source calls `session.commit()`
  itself, exactly as the Python code does — the `transaction()` context
  manager of `TransferRepo` is embedded faithfully as "commit on success,
  rollback on exception", which can only undo changes not yet committed by
  the inner repository calls.
* Database failures (the `DBAPIError` / generic-exception branches of the
  repository methods) are injected through a `Faults` record: a flag set to
  `true` makes the corresponding repository call raise at its commit point,
  leaving the staged change uncommitted.  `noFaults` is the failure-free run.
* Exceptions are modelled by `Except Err`; each `Err` constructor corresponds
  to one `HTTPException`/`AppError` raise site and carries the data the
  source puts into the error detail.
-/

namespace Banking

/-- `AccountStatus` enum of `models/account.py`. -/
inductive AccountStatus
  | ACTIVE
  | INACTIVE
  | SUSPENDED
  | CLOSED
deriving DecidableEq, Repr

/-- `TransferStatus` enum of `models/transfer.py`. -/
inductive TransferStatus
  | PENDING
  | COMPLETED
  | FAILED
  | CANCELLED
deriving DecidableEq, Repr

/-- `TransferType` enum of `models/transfer.py`. -/
inductive TransferType
  | INITIAL_DEPOSIT
  | STANDARD
deriving DecidableEq, Repr

/-- The `accounts` row (`AccountDB` of `models/account.py`).
Timestamps are irrelevant to the claims and omitted. -/
structure AccountDB where
  id : Nat
  customer_id : Nat
  account_number : Nat
  current_balance : ℚ
  version : Nat
  status : AccountStatus
deriving DecidableEq, Repr

/-- The `transfers` row (`TransferDB` of `models/transfer.py`).
Timestamps are irrelevant to the claims and omitted. -/
structure TransferDB where
  id : Nat
  source_account_id : Nat
  destination_account_id : Nat
  amount : ℚ
  idempotency_key : Nat
  description : String
  transfer_type : TransferType
  status : TransferStatus
  is_initial_deposit : Bool
deriving DecidableEq, Repr

/-- `CreateTransferRequest` of `models/transfer.py`. -/
structure CreateTransferRequest where
  source_account_id : Nat
  destination_account_id : Nat
  amount : ℚ
  idempotency_key : Nat
  description : String
  transfer_type : TransferType
deriving DecidableEq, Repr

/-- `TransferDetailsResponse` of `models/transfer.py` (timestamp omitted). -/
structure TransferDetailsResponse where
  id : Nat
  source_account_id : Nat
  destination_account_id : Nat
  amount : ℚ
  status : TransferStatus
  description : String
  transfer_type : TransferType
deriving DecidableEq, Repr

/-- `CreateAccountRequest` of `models/account.py`. -/
structure CreateAccountRequest where
  customer_id : Nat
  initial_deposit : ℚ
deriving DecidableEq, Repr

/-- `AccountDetailsResponse` of `models/account.py` (timestamp omitted). -/
structure AccountDetailsResponse where
  id : Nat
  customer_id : Nat
  account_number : Nat
  status : AccountStatus
deriving DecidableEq, Repr

/-- One snapshot of the relational store: the `customers`, `accounts` and
`transfers` tables.  Customers are reduced to their ids, which is all the
claims need. -/
structure Database where
  customers : List Nat
  accounts : List AccountDB
  transfers : List TransferDB
deriving DecidableEq, Repr

/-- The SQLAlchemy session: the committed database, the session's current
view (committed plus uncommitted changes), and the history of every state
ever committed (for temporal properties). -/
structure SessionState where
  committed : Database
  current : Database
  log : List Database
deriving DecidableEq, Repr

/-- `session.commit()`: persist the current view and record the snapshot. -/
def commit (s : SessionState) : SessionState :=
  { committed := s.current, current := s.current, log := s.log ++ [s.current] }

/-- `session.rollback()`: discard uncommitted changes. -/
def rollback (s : SessionState) : SessionState :=
  { committed := s.committed, current := s.committed, log := s.log }

/-- A session with no uncommitted changes (the state in which each request
handler receives the session). -/
def SessionState.clean (s : SessionState) : Prop :=
  s.current = s.committed

/-- `.query(AccountDB).filter(AccountDB.id == account_id).first()`. -/
def Database.findAccount (db : Database) (account_id : Nat) : Option AccountDB :=
  db.accounts.find? (fun a => a.id == account_id)

/-- `.query(TransferDB).filter(TransferDB.id == transfer_id).first()`. -/
def Database.findTransfer (db : Database) (transfer_id : Nat) : Option TransferDB :=
  db.transfers.find? (fun t => t.id == transfer_id)

/-- `.query(TransferDB).filter(TransferDB.idempotency_key == key).first()`. -/
def Database.findTransferByKey (db : Database) (key : Nat) : Option TransferDB :=
  db.transfers.find? (fun t => t.idempotency_key == key)

/-- Write back a mutated, identity-mapped account row. -/
def Database.setAccount (db : Database) (a : AccountDB) : Database :=
  { db with accounts := db.accounts.map (fun b => if b.id == a.id then a else b) }

/-- `session.add` of a new transfer row. -/
def Database.addTransfer (db : Database) (t : TransferDB) : Database :=
  { db with transfers := db.transfers ++ [t] }

/-- `session.add` of a new account row. -/
def Database.addAccount (db : Database) (a : AccountDB) : Database :=
  { db with accounts := db.accounts ++ [a] }

/-- Write back a mutated, identity-mapped transfer row's status. -/
def Database.setTransferStatus (db : Database) (transfer_id : Nat) (st : TransferStatus) :
    Database :=
  { db with transfers :=
      db.transfers.map (fun t => if t.id == transfer_id then { t with status := st } else t) }

/-- Error taxonomy: one constructor per raise site reached by the embedded
operations, carrying the data the source interpolates into the detail. -/
inductive Err
  | invalidAmount
  | sameAccount
  | accountNotFound
  | accountNotActive (id : Nat)
  | insufficientFunds (available requested : ℚ)
  | transferNotFound
  | negativeDeposit
  | customerNotFound
  | databaseError
  | internalError
deriving DecidableEq, Repr

/-- Fault-injection switches: `true` makes the corresponding repository call
fail at its database commit, as a `DBAPIError` would. -/
structure Faults where
  failTransferInsert : Bool
  failDebit : Bool
  failCredit : Bool
  failStatusUpdate : Bool
deriving DecidableEq, Repr

/-- The failure-free execution. -/
def noFaults : Faults :=
  { failTransferInsert := false, failDebit := false, failCredit := false,
    failStatusUpdate := false }

/-! ## Repository layer -/

/-- `AccountRepo.get_account`: read-only lookup, 404 on miss. -/
def get_account (s : SessionState) (account_id : Nat) : Except Err AccountDB :=
  match s.current.findAccount account_id with
  | none => .error .accountNotFound
  | some a => .ok a

/-- `AccountRepo.update_account_balance`: load the row under a `FOR UPDATE`
lock, write the new balance, increment `version` by 1, flush and commit.
On a database failure at commit (`fail = true`) the staged change is not
persisted and an `AppError(ERROR_DATABASE)` is raised. -/
def update_account_balance (fail : Bool) (s : SessionState) (account_id : Nat)
    (new_balance : ℚ) : Except Err (SessionState × AccountDB) :=
  match s.current.findAccount account_id with
  | none => .error .accountNotFound
  | some account =>
      let account' := { account with current_balance := new_balance,
                                     version := account.version + 1 }
      if fail then .error .databaseError
      else .ok (commit { s with current := s.current.setAccount account' }, account')

/-- `TransferRepo.create_transfer`: `session.add` then `session.commit`;
on a database failure the repository rolls its own staged add back and
raises an `AppError`. -/
def repo_create_transfer (fail : Bool) (s : SessionState) (t : TransferDB) :
    Except Err (SessionState × TransferDB) :=
  if fail then .error .databaseError
  else .ok (commit { s with current := s.current.addTransfer t }, t)

/-- `TransferRepo.get_transfer`: lookup, `AppError(NOT_FOUND)` on miss. -/
def get_transfer (s : SessionState) (transfer_id : Nat) : Except Err TransferDB :=
  match s.current.findTransfer transfer_id with
  | none => .error .transferNotFound
  | some t => .ok t

/-- `TransferRepo.get_transfer_by_idempotency_key`: returns `none` on miss. -/
def get_transfer_by_idempotency_key (s : SessionState) (key : Nat) : Option TransferDB :=
  s.current.findTransferByKey key

/-- `TransferRepo.update_transfer_status`: load the transfer, overwrite its
status, commit; on a commit failure the session is rolled back and
`AppError(ERROR_DATABASE)` raised, so the status change is not persisted. -/
def update_transfer_status (fail : Bool) (s : SessionState) (transfer_id : Nat)
    (transfer_status : TransferStatus) : Except Err (SessionState × TransferDB) :=
  match s.current.findTransfer transfer_id with
  | none => .error .transferNotFound
  | some t =>
      let t' := { t with status := transfer_status }
      if fail then .error .databaseError
      else .ok (commit { s with current := s.current.setTransferStatus transfer_id transfer_status }, t')

/-- `AccountRepo.create_account`: `session.add` then `session.commit`. -/
def repo_create_account (s : SessionState) (a : AccountDB) :
    Except Err (SessionState × AccountDB) :=
  .ok (commit { s with current := s.current.addAccount a }, a)

/-- `CustomerRepo.get_customer`, reduced to the existence check the claims
need: 404 `HTTPException` when the customer id is absent. -/
def get_customer (s : SessionState) (customer_id : Nat) : Except Err Unit :=
  if s.current.customers.contains customer_id then .ok () else .error .customerNotFound

/-! ## Service layer -/

/-- `TransferDetailsResponse.model_validate`. -/
def toResponse (t : TransferDB) : TransferDetailsResponse :=
  { id := t.id, source_account_id := t.source_account_id,
    destination_account_id := t.destination_account_id, amount := t.amount,
    status := t.status, description := t.description,
    transfer_type := t.transfer_type }

/-- `AccountDetailsResponse.model_validate`. -/
def toAccountResponse (a : AccountDB) : AccountDetailsResponse :=
  { id := a.id, customer_id := a.customer_id, account_number := a.account_number,
    status := a.status }

/-- `TransferService._validate_transfer_request`. -/
def validate_transfer_request (req : CreateTransferRequest) : Option Err :=
  if req.amount ≤ 0 then some .invalidAmount
  else if req.source_account_id = req.destination_account_id ∧
          req.transfer_type ≠ TransferType.INITIAL_DEPOSIT then some .sameAccount
  else none

/-- `TransferService._validate_account_status`. -/
def validate_account_status (a : AccountDB) : Option Err :=
  if a.status ≠ AccountStatus.ACTIVE then some (.accountNotActive a.id) else none

/-- The transfer row the service stages (`TransferDB(id=get_uuid(), ...,
status=TransferStatus.PENDING, ...)`); `is_initial_deposit` takes its
column default `False`. -/
def pending_transfer (newId : Nat) (req : CreateTransferRequest) : TransferDB :=
  { id := newId, source_account_id := req.source_account_id,
    destination_account_id := req.destination_account_id, amount := req.amount,
    transfer_type := req.transfer_type, status := TransferStatus.PENDING,
    idempotency_key := req.idempotency_key, description := req.description,
    is_initial_deposit := false }

/-- The same row after `update_transfer_status(.., COMPLETED)`. -/
def completed_transfer (newId : Nat) (req : CreateTransferRequest) : TransferDB :=
  { pending_transfer newId req with status := TransferStatus.COMPLETED }

/-- The body of the `with self.transfer_repo.transaction():` block of
`TransferService.create_transfer`, steps 3a–3h of the workflow.  The
returned session state is the state reached when control leaves the block
(on an error, the state the surrounding context manager will roll back). -/
def create_transfer_body (f : Faults) (newId : Nat) (req : CreateTransferRequest)
    (s : SessionState) : Except Err TransferDetailsResponse × SessionState :=
  match get_account s req.source_account_id with
  | .error e => (.error e, s)
  | .ok source_account =>
  match get_account s req.destination_account_id with
  | .error e => (.error e, s)
  | .ok destination_account =>
  match validate_account_status source_account with
  | some e => (.error e, s)
  | none =>
  match validate_account_status destination_account with
  | some e => (.error e, s)
  | none =>
  if source_account.current_balance < req.amount ∧
     req.transfer_type ≠ TransferType.INITIAL_DEPOSIT then
    (.error (.insufficientFunds source_account.current_balance req.amount), s)
  else
    match repo_create_transfer f.failTransferInsert s (pending_transfer newId req) with
    | .error e => (.error e, s)
    | .ok (s1, transfer) =>
    match (if req.transfer_type ≠ TransferType.INITIAL_DEPOSIT then
             update_account_balance f.failDebit s1 source_account.id
               (source_account.current_balance - req.amount)
           else .ok (s1, source_account)) with
    | .error e => (.error e, s1)
    | .ok (s2, _) =>
    match update_account_balance f.failCredit s2 destination_account.id
            (destination_account.current_balance + req.amount) with
    | .error e => (.error e, s2)
    | .ok (s3, _) =>
    match update_transfer_status f.failStatusUpdate s3 transfer.id
            TransferStatus.COMPLETED with
    | .error e => (.error e, s3)
    | .ok (s4, transfer') => (.ok (toResponse transfer'), s4)

/-- `TransferService.create_transfer`: validation, idempotency short-circuit,
then the transactional block (`transaction()` commits on success and rolls
back on an exception before re-raising it). -/
def create_transfer (f : Faults) (newId : Nat) (req : CreateTransferRequest)
    (s : SessionState) : Except Err TransferDetailsResponse × SessionState :=
  match validate_transfer_request req with
  | some e => (.error e, s)
  | none =>
  match get_transfer_by_idempotency_key s req.idempotency_key with
  | some existing => (.ok (toResponse existing), s)
  | none =>
    match create_transfer_body f newId req s with
    | (.ok resp, s') => (.ok resp, commit s')
    | (.error e, s') => (.error e, rollback s')

/-- The INITIAL_DEPOSIT transfer row synthesized by
`AccountService.create_account`: note it is constructed with
`status=TransferStatus.COMPLETED` and inserted directly via the repository,
not routed through `create_transfer`. -/
def initial_deposit_transfer (newTransferId account_id : Nat) (amount : ℚ)
    (idemKey : Nat) : TransferDB :=
  { id := newTransferId, source_account_id := account_id,
    destination_account_id := account_id, amount := amount,
    transfer_type := TransferType.INITIAL_DEPOSIT,
    status := TransferStatus.COMPLETED, is_initial_deposit := true,
    idempotency_key := idemKey, description := "Initial deposit" }

/-- The freshly created account row of `AccountService.create_account`
(`AccountDB(id=get_uuid(), ..., current_balance=0, version=1, status=ACTIVE)`). -/
def fresh_account (newAccountId customerId accountNumber : Nat) : AccountDB :=
  { id := newAccountId, customer_id := customerId, account_number := accountNumber,
    current_balance := 0, version := 1, status := AccountStatus.ACTIVE }

/-- `AccountService.create_account`.  `newAccountId`, `accountNumber`,
`newTransferId` and `idemKey` stand for the `get_uuid()` /
`generate_unique_account_number()` calls. -/
def create_account (newAccountId accountNumber newTransferId idemKey : Nat)
    (req : CreateAccountRequest) (s : SessionState) :
    Except Err AccountDetailsResponse × SessionState :=
  if req.initial_deposit < 0 then (.error .negativeDeposit, s)
  else
    match get_customer s req.customer_id with
    | .error e => (.error e, s)
    | .ok _ =>
      let account0 : AccountDB := fresh_account newAccountId req.customer_id accountNumber
      match repo_create_account s account0 with
      | .error _ => (.error .internalError, s)
      | .ok (s1, account) =>
        if req.initial_deposit > 0 then
          match repo_create_transfer false s1
                  (initial_deposit_transfer newTransferId account.id
                    req.initial_deposit idemKey) with
          | .error _ => (.error .internalError, s1)
          | .ok (s2, _) =>
            match update_account_balance false s2 account.id
                    (account.current_balance + req.initial_deposit) with
            | .error _ => (.error .internalError, s2)
            | .ok (s3, account') => (.ok (toAccountResponse account'), s3)
        else (.ok (toAccountResponse account), s1)

/-- The class-body default of `CreateTransferRequest.idempotency_key`:
`get_uuid()` is evaluated once, when `models/transfer.py` is imported, so
every request constructed without an explicit key shares this one value. -/
def default_idempotency_key : Nat := 907

/-- A `CreateTransferRequest` built with the pydantic field defaults
(`idempotency_key`, `description`, `transfer_type` omitted by the caller). -/
def request_with_defaults (src dst : Nat) (amount : ℚ) : CreateTransferRequest :=
  { source_account_id := src, destination_account_id := dst, amount := amount,
    idempotency_key := default_idempotency_key, description := "",
    transfer_type := TransferType.STANDARD }

/-! ## Derived notions used to state the properties -/

/-- The source row after the workflow's debit step. -/
def debited (A : AccountDB) (amt : ℚ) : AccountDB :=
  { A with current_balance := A.current_balance - amt, version := A.version + 1 }

/-- The destination row after the workflow's credit step. -/
def credited (B : AccountDB) (amt : ℚ) : AccountDB :=
  { B with current_balance := B.current_balance + amt, version := B.version + 1 }

/-- Committed snapshot after step 3d (insert of the PENDING row). -/
def std_db1 (n : Nat) (req : CreateTransferRequest) (s : SessionState) : Database :=
  s.current.addTransfer (pending_transfer n req)

/-- Committed snapshot after step 3e (debit of the source). -/
def std_db2 (n : Nat) (req : CreateTransferRequest) (s : SessionState) (A : AccountDB) :
    Database :=
  (std_db1 n req s).setAccount (debited A req.amount)

/-- Committed snapshot after step 3f (credit of the destination). -/
def std_db3 (n : Nat) (req : CreateTransferRequest) (s : SessionState) (A B : AccountDB) :
    Database :=
  (std_db2 n req s A).setAccount (credited B req.amount)

/-- Committed snapshot after step 3g (status transition to COMPLETED). -/
def std_db4 (n : Nat) (req : CreateTransferRequest) (s : SessionState) (A B : AccountDB) :
    Database :=
  (std_db3 n req s A B).setTransferStatus n TransferStatus.COMPLETED

/-- Committed snapshot after the credit step of an INITIAL_DEPOSIT-typed
request (the debit step is skipped). -/
def initdep_db2 (n : Nat) (req : CreateTransferRequest) (s : SessionState) (B : AccountDB) :
    Database :=
  (std_db1 n req s).setAccount (credited B req.amount)

/-- Committed snapshot after the status transition of an INITIAL_DEPOSIT-typed
request. -/
def initdep_db3 (n : Nat) (req : CreateTransferRequest) (s : SessionState) (B : AccountDB) :
    Database :=
  (initdep_db2 n req s B).setTransferStatus n TransferStatus.COMPLETED

/-- Every stored balance is non-negative. -/
def Database.nonneg (db : Database) : Prop :=
  ∀ a ∈ db.accounts, 0 ≤ a.current_balance

/-- Both the committed store and the session view satisfy the balance
invariant. -/
def SessionState.nonneg (s : SessionState) : Prop :=
  s.committed.nonneg ∧ s.current.nonneg

instance (db : Database) : Decidable db.nonneg :=
  decidable_of_iff (∀ a ∈ db.accounts, 0 ≤ a.current_balance) Iff.rfl

instance (s : SessionState) : Decidable s.nonneg :=
  decidable_of_iff (s.committed.nonneg ∧ s.current.nonneg) Iff.rfl

/-! ## Concrete scenario used to evaluate the theorems -/

/-- Seed account 1: ACTIVE with balance 100. -/
def acctOne : AccountDB :=
  { id := 1, customer_id := 100, account_number := 11, current_balance := 100,
    version := 1, status := AccountStatus.ACTIVE }

/-- Seed account 2: ACTIVE with balance 50. -/
def acctTwo : AccountDB :=
  { id := 2, customer_id := 100, account_number := 22, current_balance := 50,
    version := 1, status := AccountStatus.ACTIVE }

/-- Seed store: one customer, the two seed accounts, no transfers. -/
def dbPair : Database :=
  { customers := [100], accounts := [acctOne, acctTwo], transfers := [] }

/-- Clean session over the seed store. -/
def sPair : SessionState := { committed := dbPair, current := dbPair, log := [] }

/-- A STANDARD transfer request moving 30 from account 1 to account 2. -/
def reqStd : CreateTransferRequest :=
  { source_account_id := 1, destination_account_id := 2, amount := 30,
    idempotency_key := 7, description := "rent", transfer_type := TransferType.STANDARD }

/-- An INITIAL_DEPOSIT-typed request between the two distinct accounts,
submitted through the public transfer operation. -/
def reqInitDep : CreateTransferRequest :=
  { source_account_id := 1, destination_account_id := 2, amount := 4,
    idempotency_key := 8, description := "seed", transfer_type := TransferType.INITIAL_DEPOSIT }

/-- A STANDARD request whose amount exceeds the source balance. -/
def reqBig : CreateTransferRequest :=
  { source_account_id := 1, destination_account_id := 2, amount := 500,
    idempotency_key := 9, description := "big", transfer_type := TransferType.STANDARD }

/-- An INITIAL_DEPOSIT-typed request between distinct accounts whose amount
exceeds the source balance (the funds check is skipped for this type). -/
def reqInitDepBig : CreateTransferRequest :=
  { source_account_id := 1, destination_account_id := 2, amount := 500,
    idempotency_key := 12, description := "seed", transfer_type := TransferType.INITIAL_DEPOSIT }

/-- Fault configuration in which only the destination credit fails. -/
def creditFault : Faults :=
  { failTransferInsert := false, failDebit := false, failCredit := true,
    failStatusUpdate := false }

/-- Account-creation request with a positive initial deposit. -/
def reqAcct : CreateAccountRequest := { customer_id := 100, initial_deposit := 5 }

/-- Account-creation request with a zero initial deposit. -/
def reqAcctZero : CreateAccountRequest := { customer_id := 100, initial_deposit := 0 }

/-- Account-creation request with a negative initial deposit. -/
def reqAcctNeg : CreateAccountRequest := { customer_id := 100, initial_deposit := -3 }

/-- Session state after the first successful run of `reqStd`. -/
def sAfterFirst : SessionState := (create_transfer noFaults 10 reqStd sPair).2

/-- Session state after a first transfer submitted with the defaulted
idempotency key. -/
def sAfterDefaults : SessionState :=
  (create_transfer noFaults 10 (request_with_defaults 1 2 30) sPair).2

/-- The row written by `update_account_balance`: new balance, version + 1. -/
def bumped (a : AccountDB) (nb : ℚ) : AccountDB :=
  { a with current_balance := nb, version := a.version + 1 }

/-- A STANDARD request with a non-positive amount. -/
def reqNeg : CreateTransferRequest :=
  { source_account_id := 1, destination_account_id := 2, amount := -5,
    idempotency_key := 13, description := "bad", transfer_type := TransferType.STANDARD }

/-- A STANDARD request whose source equals its destination. -/
def reqSame : CreateTransferRequest :=
  { source_account_id := 1, destination_account_id := 1, amount := 10,
    idempotency_key := 14, description := "loop", transfer_type := TransferType.STANDARD }

/-- A self-referential INITIAL_DEPOSIT-typed request. -/
def reqSelfDep : CreateTransferRequest :=
  { source_account_id := 1, destination_account_id := 1, amount := 10,
    idempotency_key := 15, description := "self", transfer_type := TransferType.INITIAL_DEPOSIT }

/-- Result of the locked balance update setting account 1 to balance 80. -/
def updOne : SessionState × AccountDB :=
  (commit { sPair with current :=
      sPair.current.setAccount { acctOne with current_balance := 80, version := 2 } },
   { acctOne with current_balance := 80, version := 2 })

/-! ## Session and store lemmas -/

@[simp] theorem commit_committed (s : SessionState) : (commit s).committed = s.current := rfl

@[simp] theorem commit_current (s : SessionState) : (commit s).current = s.current := rfl

@[simp] theorem commit_log (s : SessionState) : (commit s).log = s.log ++ [s.current] := rfl

@[simp] theorem rollback_committed (s : SessionState) : (rollback s).committed = s.committed := rfl

@[simp] theorem rollback_current (s : SessionState) : (rollback s).current = s.committed := rfl

@[simp] theorem rollback_log (s : SessionState) : (rollback s).log = s.log := rfl

theorem rollback_eq_of_clean {s : SessionState} (h : s.clean) : rollback s = s := by
  cases s
  simp only [SessionState.clean] at h
  simp [rollback, h]

@[simp] theorem addTransfer_customers (db : Database) (t : TransferDB) :
    (db.addTransfer t).customers = db.customers := rfl

@[simp] theorem addTransfer_accounts (db : Database) (t : TransferDB) :
    (db.addTransfer t).accounts = db.accounts := rfl

@[simp] theorem addTransfer_transfers (db : Database) (t : TransferDB) :
    (db.addTransfer t).transfers = db.transfers ++ [t] := rfl

@[simp] theorem addAccount_accounts (db : Database) (a : AccountDB) :
    (db.addAccount a).accounts = db.accounts ++ [a] := rfl

@[simp] theorem addAccount_transfers (db : Database) (a : AccountDB) :
    (db.addAccount a).transfers = db.transfers := rfl

@[simp] theorem setAccount_transfers (db : Database) (a : AccountDB) :
    (db.setAccount a).transfers = db.transfers := rfl

@[simp] theorem setAccount_customers (db : Database) (a : AccountDB) :
    (db.setAccount a).customers = db.customers := rfl

@[simp] theorem setTransferStatus_accounts (db : Database) (n : Nat) (st : TransferStatus) :
    (db.setTransferStatus n st).accounts = db.accounts := rfl

@[simp] theorem setTransferStatus_customers (db : Database) (n : Nat) (st : TransferStatus) :
    (db.setTransferStatus n st).customers = db.customers := rfl

@[simp] theorem findAccount_addTransfer (db : Database) (t : TransferDB) (i : Nat) :
    (db.addTransfer t).findAccount i = db.findAccount i := rfl

@[simp] theorem findAccount_setTransferStatus (db : Database) (n : Nat) (st : TransferStatus)
    (i : Nat) : (db.setTransferStatus n st).findAccount i = db.findAccount i := rfl

@[simp] theorem findTransfer_setAccount (db : Database) (a : AccountDB) (n : Nat) :
    (db.setAccount a).findTransfer n = db.findTransfer n := rfl

@[simp] theorem findTransferByKey_setAccount (db : Database) (a : AccountDB) (k : Nat) :
    (db.setAccount a).findTransferByKey k = db.findTransferByKey k := rfl

theorem findAccount_id {db : Database} {i : Nat} {a : AccountDB}
    (h : db.findAccount i = some a) : a.id = i := by
  have h' : db.accounts.find? (fun b => b.id == i) = some a := h
  simpa using List.find?_some h'

theorem findAccount_mem {db : Database} {i : Nat} {a : AccountDB}
    (h : db.findAccount i = some a) : a ∈ db.accounts := by
  have h' : db.accounts.find? (fun b => b.id == i) = some a := h
  exact List.mem_of_find?_eq_some h'

/-! ### `find?` versus the write-back maps -/

theorem find?_set_ne (l : List AccountDB) (a : AccountDB) (i : Nat) (h : i ≠ a.id) :
    (l.map fun b => if b.id == a.id then a else b).find? (fun b => b.id == i) =
      l.find? (fun b => b.id == i) := by
  induction l with
  | nil => rfl
  | cons b l ih =>
    by_cases hb : b.id = a.id
    · rw [List.map_cons, if_pos (by simpa using hb),
        List.find?_cons_of_neg _ (by simpa using (Ne.symm h)),
        List.find?_cons_of_neg _ (by simpa using hb ▸ Ne.symm h)]
      exact ih
    · rw [List.map_cons, if_neg (by simpa using hb)]
      by_cases hbi : b.id = i
      · rw [List.find?_cons_of_pos _ (by simpa using hbi),
          List.find?_cons_of_pos _ (by simpa using hbi)]
      · rw [List.find?_cons_of_neg _ (by simpa using hbi),
          List.find?_cons_of_neg _ (by simpa using hbi)]
        exact ih

theorem find?_set_self (l : List AccountDB) (a c : AccountDB)
    (h : l.find? (fun b => b.id == a.id) = some c) :
    (l.map fun b => if b.id == a.id then a else b).find? (fun b => b.id == a.id) = some a := by
  induction l with
  | nil => simp at h
  | cons b l ih =>
    by_cases hb : b.id = a.id
    · rw [List.map_cons, if_pos (by simpa using hb), List.find?_cons_of_pos _ (by simp)]
    · rw [List.map_cons, if_neg (by simpa using hb),
        List.find?_cons_of_neg _ (by simpa using hb)]
      rw [List.find?_cons_of_neg _ (by simpa using hb)] at h
      exact ih h

theorem findAccount_setAccount_ne {db : Database} {a : AccountDB} {i : Nat} (h : i ≠ a.id) :
    (db.setAccount a).findAccount i = db.findAccount i :=
  find?_set_ne db.accounts a i h

theorem findAccount_setAccount_self {db : Database} {a c : AccountDB}
    (h : db.findAccount a.id = some c) :
    (db.setAccount a).findAccount a.id = some a :=
  find?_set_self db.accounts a c h

theorem find?_id_statusmap_self (l : List TransferDB) (n : Nat) (st : TransferStatus)
    (t : TransferDB) (h : l.find? (fun u => u.id == n) = some t) :
    (l.map fun u => if u.id == n then { u with status := st } else u).find?
      (fun u => u.id == n) = some { t with status := st } := by
  induction l with
  | nil => simp at h
  | cons u l ih =>
    by_cases hu : u.id = n
    · rw [List.find?_cons_of_pos _ (by simpa using hu)] at h
      cases h
      rw [List.map_cons, if_pos (by simpa using hu),
        List.find?_cons_of_pos _ (by simpa using hu)]
    · rw [List.find?_cons_of_neg _ (by simpa using hu)] at h
      rw [List.map_cons, if_neg (by simpa using hu),
        List.find?_cons_of_neg _ (by simpa using hu)]
      exact ih h

theorem find?_id_append_fresh (l : List TransferDB) (t0 : TransferDB) (n : Nat)
    (hfresh : ∀ u ∈ l, u.id ≠ n) (ht : t0.id = n) :
    (l ++ [t0]).find? (fun u => u.id == n) = some t0 := by
  induction l with
  | nil => simp [List.find?, ht]
  | cons u l ih =>
    rw [List.cons_append, List.find?_cons_of_neg _ (by simpa using hfresh u (by simp))]
    exact ih fun v hv => hfresh v (by simp [hv])

theorem find?_key_append_statusmap (l : List TransferDB) (t0 : TransferDB) (n : Nat)
    (st : TransferStatus)
    (hkey : ∀ u ∈ l, u.idempotency_key ≠ t0.idempotency_key) (ht : t0.id = n) :
    ((l ++ [t0]).map fun u => if u.id == n then { u with status := st } else u).find?
      (fun u => u.idempotency_key == t0.idempotency_key) = some { t0 with status := st } := by
  induction l with
  | nil => simp [List.find?, ht]
  | cons u l ih =>
    rw [List.cons_append, List.map_cons]
    have hkeyu : u.idempotency_key ≠ t0.idempotency_key := hkey u (by simp)
    by_cases hu : u.id = n
    · rw [if_pos (by simpa using hu), List.find?_cons_of_neg _ (by simpa using hkeyu)]
      exact ih fun v hv => hkey v (by simp [hv])
    · rw [if_neg (by simpa using hu), List.find?_cons_of_neg _ (by simpa using hkeyu)]
      exact ih fun v hv => hkey v (by simp [hv])

theorem findTransferByKey_eq_none_iff (db : Database) (k : Nat) :
    db.findTransferByKey k = none ↔ ∀ u ∈ db.transfers, u.idempotency_key ≠ k := by
  unfold Database.findTransferByKey
  rw [List.find?_eq_none]
  simp

/-! ### Success-path equations for the repository operations -/

theorem get_account_ok {s : SessionState} {i : Nat} {a : AccountDB}
    (h : s.current.findAccount i = some a) : get_account s i = .ok a := by
  unfold get_account
  rw [h]

theorem validate_account_status_active {a : AccountDB} (h : a.status = AccountStatus.ACTIVE) :
    validate_account_status a = none := by
  unfold validate_account_status
  simp [h]

theorem update_account_balance_ok {s : SessionState} {i : Nat} {a : AccountDB} (nb : ℚ)
    (h : s.current.findAccount i = some a) :
    update_account_balance false s i nb =
      .ok (commit { s with current :=
             s.current.setAccount { a with current_balance := nb, version := a.version + 1 } },
           { a with current_balance := nb, version := a.version + 1 }) := by
  unfold update_account_balance
  rw [h]
  rfl

theorem repo_create_transfer_ok (s : SessionState) (t : TransferDB) :
    repo_create_transfer false s t =
      .ok (commit { s with current := s.current.addTransfer t }, t) := rfl

theorem update_transfer_status_ok {s : SessionState} {n : Nat} {t : TransferDB}
    (st : TransferStatus) (h : s.current.findTransfer n = some t) :
    update_transfer_status false s n st =
      .ok (commit { s with current := s.current.setTransferStatus n st },
           { t with status := st }) := by
  unfold update_transfer_status
  rw [h]
  rfl

/-! ### Request validation -/

theorem validate_transfer_request_none {req : CreateTransferRequest}
    (hamt : 0 < req.amount)
    (h : req.source_account_id ≠ req.destination_account_id ∨
         req.transfer_type = TransferType.INITIAL_DEPOSIT) :
    validate_transfer_request req = none := by
  unfold validate_transfer_request
  rw [if_neg (not_le.mpr hamt), if_neg]
  rintro ⟨h1, h2⟩
  rcases h with h | h
  · exact h h1
  · exact h2 h

theorem validate_transfer_request_none_iff (req : CreateTransferRequest) :
    validate_transfer_request req = none ↔
      0 < req.amount ∧ (req.source_account_id ≠ req.destination_account_id ∨
        req.transfer_type = TransferType.INITIAL_DEPOSIT) := by
  unfold validate_transfer_request
  by_cases h1 : req.amount ≤ 0
  · simp [h1, not_lt.mpr h1]
  · rw [if_neg h1]
    by_cases h2 : req.source_account_id = req.destination_account_id ∧
        req.transfer_type ≠ TransferType.INITIAL_DEPOSIT
    · simp only [if_pos h2]
      constructor
      · intro hcon
        cases hcon
      · rintro ⟨-, h | h⟩
        · exact absurd h2.1 h
        · exact absurd h h2.2
    · simp only [if_neg h2]
      constructor
      · intro _
        refine ⟨lt_of_not_le h1, ?_⟩
        by_cases hsd : req.source_account_id = req.destination_account_id
        · right
          by_contra hty
          exact h2 ⟨hsd, hty⟩
        · exact Or.inl hsd
      · intro _
        trivial

@[simp] theorem pending_transfer_id (n : Nat) (req : CreateTransferRequest) :
    (pending_transfer n req).id = n := rfl

@[simp] theorem pending_transfer_key (n : Nat) (req : CreateTransferRequest) :
    (pending_transfer n req).idempotency_key = req.idempotency_key := rfl

theorem findTransfer_addTransfer_fresh {db : Database} {t0 : TransferDB} {n : Nat}
    (hfresh : ∀ u ∈ db.transfers, u.id ≠ n) (ht : t0.id = n) :
    (db.addTransfer t0).findTransfer n = some t0 :=
  find?_id_append_fresh db.transfers t0 n hfresh ht

theorem create_transfer_std_run {n : Nat} {req : CreateTransferRequest} {s : SessionState}
    {A B : AccountDB}
    (hty : req.transfer_type = TransferType.STANDARD)
    (hamt : 0 < req.amount)
    (hne : req.source_account_id ≠ req.destination_account_id)
    (hkey : s.current.findTransferByKey req.idempotency_key = none)
    (hA : s.current.findAccount req.source_account_id = some A)
    (hB : s.current.findAccount req.destination_account_id = some B)
    (hAst : A.status = AccountStatus.ACTIVE)
    (hBst : B.status = AccountStatus.ACTIVE)
    (hfunds : req.amount ≤ A.current_balance)
    (hfresh : ∀ t ∈ s.current.transfers, t.id ≠ n) :
    create_transfer noFaults n req s =
      (.ok (toResponse (completed_transfer n req)),
       { committed := std_db4 n req s A B, current := std_db4 n req s A B,
         log := s.log ++ [std_db1 n req s, std_db2 n req s A, std_db3 n req s A B,
                          std_db4 n req s A B, std_db4 n req s A B] }) := by
  have hAid : A.id = req.source_account_id := findAccount_id hA
  have hBid : B.id = req.destination_account_id := findAccount_id hB
  have hval : validate_transfer_request req = none :=
    validate_transfer_request_none hamt (Or.inl hne)
  have hty2 : TransferType.STANDARD ≠ TransferType.INITIAL_DEPOSIT := by decide
  simp only [create_transfer, create_transfer_body, hval, get_transfer_by_idempotency_key, hkey,
    get_account_ok hA, get_account_ok hB, validate_account_status_active hAst,
    validate_account_status_active hBst, noFaults, repo_create_transfer_ok, hAid, hBid, hty,
    ne_eq, not_false_eq_true, and_true, false_and, not_lt.mpr hfunds, hty2, if_false, if_true,
    ite_true, ite_false, pending_transfer_id]
  set s1 : SessionState := commit { s with current := s.current.addTransfer (pending_transfer n req) } with hs1
  have hA1 : s1.current.findAccount req.source_account_id = some A := by
    rw [hs1]
    simp [hA]
  rw [update_account_balance_ok (A.current_balance - req.amount) hA1]
  simp only []
  set s2 : SessionState := commit { s1 with current := s1.current.setAccount { A with current_balance := A.current_balance - req.amount, version := A.version + 1 } } with hs2
  have hB2 : s2.current.findAccount req.destination_account_id = some B := by
    rw [hs2, hs1]
    simp [hB, findAccount_setAccount_ne, hAid, Ne.symm hne]
  rw [update_account_balance_ok (B.current_balance + req.amount) hB2]
  simp only []
  set s3 : SessionState := commit { s2 with current := s2.current.setAccount { B with current_balance := B.current_balance + req.amount, version := B.version + 1 } } with hs3
  have hT3 : s3.current.findTransfer n = some (pending_transfer n req) := by
    rw [hs3, hs2, hs1]
    simp only [commit_current]
    simp only [findTransfer_setAccount]
    exact findTransfer_addTransfer_fresh hfresh rfl
  rw [update_transfer_status_ok TransferStatus.COMPLETED hT3]
  simp only []
  rw [hs3, hs2, hs1]
  simp only [std_db1, std_db2, std_db3, std_db4, debited, credited, completed_transfer,
    commit_current, commit_committed, commit_log, commit, List.append_assoc, List.cons_append,
    List.nil_append, List.singleton_append]

theorem create_transfer_initdep_run {n : Nat} {req : CreateTransferRequest} {s : SessionState}
    {A B : AccountDB}
    (hty : req.transfer_type = TransferType.INITIAL_DEPOSIT)
    (hamt : 0 < req.amount)
    (hne : req.source_account_id ≠ req.destination_account_id)
    (hkey : s.current.findTransferByKey req.idempotency_key = none)
    (hA : s.current.findAccount req.source_account_id = some A)
    (hB : s.current.findAccount req.destination_account_id = some B)
    (hAst : A.status = AccountStatus.ACTIVE)
    (hBst : B.status = AccountStatus.ACTIVE)
    (hfresh : ∀ t ∈ s.current.transfers, t.id ≠ n) :
    create_transfer noFaults n req s =
      (.ok (toResponse (completed_transfer n req)),
       { committed := initdep_db3 n req s B, current := initdep_db3 n req s B,
         log := s.log ++ [std_db1 n req s, initdep_db2 n req s B, initdep_db3 n req s B,
                          initdep_db3 n req s B] }) := by
  have hBid : B.id = req.destination_account_id := findAccount_id hB
  have hval : validate_transfer_request req = none :=
    validate_transfer_request_none hamt (Or.inl hne)
  simp only [create_transfer, create_transfer_body, hval, get_transfer_by_idempotency_key, hkey,
    get_account_ok hA, get_account_ok hB, validate_account_status_active hAst,
    validate_account_status_active hBst, noFaults, repo_create_transfer_ok, hBid, hty,
    ne_eq, eq_self_iff_true, not_true, and_false, if_false, if_true, ite_true, ite_false,
    pending_transfer_id]
  set s1 : SessionState := commit { s with current := s.current.addTransfer (pending_transfer n req) } with hs1
  have hB1 : s1.current.findAccount req.destination_account_id = some B := by
    rw [hs1]
    simp [hB]
  rw [update_account_balance_ok (B.current_balance + req.amount) hB1]
  simp only []
  set s2 : SessionState := commit { s1 with current := s1.current.setAccount { B with current_balance := B.current_balance + req.amount, version := B.version + 1 } } with hs2
  have hT2 : s2.current.findTransfer n = some (pending_transfer n req) := by
    rw [hs2, hs1]
    simp only [commit_current]
    simp only [findTransfer_setAccount]
    exact findTransfer_addTransfer_fresh hfresh rfl
  rw [update_transfer_status_ok TransferStatus.COMPLETED hT2]
  simp only []
  rw [hs2, hs1]
  simp only [std_db1, initdep_db2, initdep_db3, credited, completed_transfer,
    commit_current, commit_committed, commit_log, commit, List.append_assoc, List.cons_append,
    List.nil_append, List.singleton_append]

theorem findTransfer_setTransferStatus_self {X : Database} {n : Nat} {st : TransferStatus}
    {t : TransferDB} (h : X.findTransfer n = some t) :
    (X.setTransferStatus n st).findTransfer n = some { t with status := st } :=
  find?_id_statusmap_self X.transfers n st t h

theorem findTransferByKey_statusmap_append {X : Database} {l : List TransferDB}
    {t0 : TransferDB} {n : Nat} {st : TransferStatus}
    (hX : X.transfers = l ++ [t0])
    (hkey : ∀ u ∈ l, u.idempotency_key ≠ t0.idempotency_key) (ht : t0.id = n) :
    (X.setTransferStatus n st).findTransferByKey t0.idempotency_key =
      some { t0 with status := st } := by
  unfold Database.setTransferStatus Database.findTransferByKey
  simp only [hX]
  exact find?_key_append_statusmap l t0 n st hkey ht

theorem std_db4_findAccount_src {n : Nat} {req : CreateTransferRequest} {s : SessionState}
    {A B : AccountDB}
    (hne : req.source_account_id ≠ req.destination_account_id)
    (hA : s.current.findAccount req.source_account_id = some A)
    (hB : s.current.findAccount req.destination_account_id = some B) :
    (std_db4 n req s A B).findAccount req.source_account_id = some (debited A req.amount) := by
  have hAid : A.id = req.source_account_id := findAccount_id hA
  have hBid : B.id = req.destination_account_id := findAccount_id hB
  unfold std_db4 std_db3 std_db2
  rw [findAccount_setTransferStatus]
  rw [findAccount_setAccount_ne (by simp only [credited]; rw [hBid]; exact hne)]
  have hid : (debited A req.amount).id = req.source_account_id := by
    simp only [debited]
    exact hAid
  rw [← hid]
  exact findAccount_setAccount_self (c := A)
    (by rw [hid]; unfold std_db1; rw [findAccount_addTransfer]; exact hA)

theorem std_db4_findAccount_dst {n : Nat} {req : CreateTransferRequest} {s : SessionState}
    {A B : AccountDB}
    (hne : req.source_account_id ≠ req.destination_account_id)
    (hA : s.current.findAccount req.source_account_id = some A)
    (hB : s.current.findAccount req.destination_account_id = some B) :
    (std_db4 n req s A B).findAccount req.destination_account_id =
      some (credited B req.amount) := by
  have hAid : A.id = req.source_account_id := findAccount_id hA
  have hBid : B.id = req.destination_account_id := findAccount_id hB
  unfold std_db4 std_db3
  rw [findAccount_setTransferStatus]
  have hid : (credited B req.amount).id = req.destination_account_id := by
    simp only [credited]
    exact hBid
  rw [← hid]
  exact findAccount_setAccount_self (c := B)
    (by rw [hid]; unfold std_db2;
        rw [findAccount_setAccount_ne (by simp only [debited]; rw [hAid]; exact Ne.symm hne)];
        unfold std_db1; rw [findAccount_addTransfer]; exact hB)

theorem std_db4_findTransferByKey {n : Nat} {req : CreateTransferRequest} {s : SessionState}
    {A B : AccountDB}
    (hkey : s.current.findTransferByKey req.idempotency_key = none) :
    (std_db4 n req s A B).findTransferByKey req.idempotency_key =
      some (completed_transfer n req) := by
  have h := (findTransferByKey_eq_none_iff s.current req.idempotency_key).mp hkey
  unfold std_db4
  have := @findTransferByKey_statusmap_append (std_db3 n req s A B) s.current.transfers
    (pending_transfer n req) n TransferStatus.COMPLETED
    (by simp [std_db3, std_db2, std_db1]) (fun u hu => h u hu) rfl
  simpa [completed_transfer] using this

theorem initdep_db3_findAccount_src {n : Nat} {req : CreateTransferRequest} {s : SessionState}
    {A B : AccountDB}
    (hne : req.source_account_id ≠ req.destination_account_id)
    (hA : s.current.findAccount req.source_account_id = some A)
    (hB : s.current.findAccount req.destination_account_id = some B) :
    (initdep_db3 n req s B).findAccount req.source_account_id = some A := by
  have hBid : B.id = req.destination_account_id := findAccount_id hB
  unfold initdep_db3 initdep_db2
  rw [findAccount_setTransferStatus]
  rw [findAccount_setAccount_ne (by simp only [credited]; rw [hBid]; exact hne)]
  unfold std_db1
  rw [findAccount_addTransfer]
  exact hA

theorem update_account_balance_ok_inv {b : Bool} {s : SessionState} {i : Nat} {nb : ℚ}
    {s' : SessionState} {a' : AccountDB}
    (h : update_account_balance b s i nb = .ok (s', a')) :
    b = false ∧ ∃ a, s.current.findAccount i = some a ∧
      a' = { a with current_balance := nb, version := a.version + 1 } ∧
      s' = commit { s with current :=
        s.current.setAccount { a with current_balance := nb, version := a.version + 1 } } := by
  unfold update_account_balance at h
  cases hfind : s.current.findAccount i with
  | none =>
    rw [hfind] at h
    cases h
  | some a =>
    rw [hfind] at h
    cases b with
    | true => simp at h
    | false =>
      simp only [Bool.false_eq_true, if_false, ite_false, Except.ok.injEq, Prod.mk.injEq] at h
      exact ⟨rfl, a, rfl, h.2.symm, h.1.symm⟩

theorem repo_create_transfer_ok_inv {b : Bool} {s : SessionState} {t : TransferDB}
    {s' : SessionState} {t' : TransferDB}
    (h : repo_create_transfer b s t = .ok (s', t')) :
    b = false ∧ s' = commit { s with current := s.current.addTransfer t } ∧ t' = t := by
  unfold repo_create_transfer at h
  cases b with
  | true => simp at h
  | false =>
    simp only [Bool.false_eq_true, if_false, ite_false, Except.ok.injEq, Prod.mk.injEq] at h
    exact ⟨rfl, h.1.symm, h.2.symm⟩

theorem update_transfer_status_ok_inv {b : Bool} {s : SessionState} {i : Nat}
    {st : TransferStatus} {s' : SessionState} {t' : TransferDB}
    (h : update_transfer_status b s i st = .ok (s', t')) :
    b = false ∧ ∃ t, s.current.findTransfer i = some t ∧
      t' = { t with status := st } ∧
      s' = commit { s with current := s.current.setTransferStatus i st } := by
  unfold update_transfer_status at h
  cases hfind : s.current.findTransfer i with
  | none =>
    rw [hfind] at h
    cases h
  | some t =>
    rw [hfind] at h
    cases b with
    | true => simp at h
    | false =>
      simp only [Bool.false_eq_true, if_false, ite_false, Except.ok.injEq, Prod.mk.injEq] at h
      exact ⟨rfl, t, rfl, h.2.symm, h.1.symm⟩

theorem initdep_db3_findAccount_dst {n : Nat} {req : CreateTransferRequest} {s : SessionState}
    {B : AccountDB}
    (hB : s.current.findAccount req.destination_account_id = some B) :
    (initdep_db3 n req s B).findAccount req.destination_account_id =
      some (credited B req.amount) := by
  have hBid : B.id = req.destination_account_id := findAccount_id hB
  unfold initdep_db3 initdep_db2
  rw [findAccount_setTransferStatus]
  have hid : (credited B req.amount).id = req.destination_account_id := by
    simp only [credited]
    exact hBid
  rw [← hid]
  exact findAccount_setAccount_self (c := B)
    (by rw [hid]; unfold std_db1; rw [findAccount_addTransfer]; exact hB)

theorem create_transfer_body_ok_inv {f : Faults} {n : Nat} {req : CreateTransferRequest}
    {s : SessionState} {resp : TransferDetailsResponse} {s' : SessionState}
    (hkey : ∀ u ∈ s.current.transfers, u.idempotency_key ≠ req.idempotency_key)
    (hfresh : ∀ u ∈ s.current.transfers, u.id ≠ n)
    (h : create_transfer_body f n req s = (.ok resp, s')) :
    resp = toResponse (completed_transfer n req) ∧
    s'.current.findTransferByKey req.idempotency_key = some (completed_transfer n req) := by
  unfold create_transfer_body at h
  cases hsrc : get_account s req.source_account_id with
  | error e => rw [hsrc] at h; simp at h
  | ok A =>
  rw [hsrc] at h
  try simp only [] at h
  cases hdst : get_account s req.destination_account_id with
  | error e => rw [hdst] at h; simp at h
  | ok B =>
  rw [hdst] at h
  try simp only [] at h
  cases hvA : validate_account_status A with
  | some e => rw [hvA] at h; simp at h
  | none =>
  rw [hvA] at h
  try simp only [] at h
  cases hvB : validate_account_status B with
  | some e => rw [hvB] at h; simp at h
  | none =>
  rw [hvB] at h
  try simp only [] at h
  by_cases hty : req.transfer_type = TransferType.INITIAL_DEPOSIT
  · -- INITIAL_DEPOSIT: funds check passes vacuously, debit is skipped
    rw [if_neg (fun hc => hc.2 hty)] at h
    cases hins : repo_create_transfer f.failTransferInsert s (pending_transfer n req) with
    | error e => rw [hins] at h; simp at h
    | ok p =>
    obtain ⟨s1, tr⟩ := p
    rw [hins] at h
    try simp only [] at h
    obtain ⟨-, hs1, htr⟩ := repo_create_transfer_ok_inv hins
    subst htr
    rw [if_neg (not_not_intro hty)] at h
    try simp only [] at h
    cases hcred : update_account_balance f.failCredit s1 B.id
        (B.current_balance + req.amount) with
    | error e => rw [hcred] at h; simp at h
    | ok q =>
    obtain ⟨s3, B'⟩ := q
    rw [hcred] at h
    try simp only [] at h
    obtain ⟨-, Bb, hfindB, hB', hs3⟩ := update_account_balance_ok_inv hcred
    cases hst : update_transfer_status f.failStatusUpdate s3 (pending_transfer n req).id
        TransferStatus.COMPLETED with
    | error e => rw [hst] at h; simp at h
    | ok r =>
    obtain ⟨s4, t'⟩ := r
    rw [hst] at h
    simp only [Prod.mk.injEq, Except.ok.injEq] at h
    obtain ⟨hresp, hs'⟩ := h
    obtain ⟨-, t, hfindT, ht', hs4⟩ := update_transfer_status_ok_inv hst
    have htrans3 : s3.current.transfers = s.current.transfers ++ [pending_transfer n req] := by
      rw [hs3, hs1]
      simp
    have hfind0 : s3.current.findTransfer (pending_transfer n req).id =
        some (pending_transfer n req) := by
      unfold Database.findTransfer
      rw [htrans3, pending_transfer_id]
      exact find?_id_append_fresh _ _ _ hfresh rfl
    rw [hfind0] at hfindT
    obtain rfl : t = pending_transfer n req := by
      cases hfindT
      rfl
    subst ht'
    refine ⟨hresp.symm, ?_⟩
    rw [← hs', hs4]
    simp only [commit_current]
    exact findTransferByKey_statusmap_append (l := s.current.transfers) htrans3 hkey rfl
  · -- STANDARD: the debit runs
    by_cases hlt : A.current_balance < req.amount
    · rw [if_pos ⟨hlt, hty⟩] at h
      simp at h
    · rw [if_neg (fun hc => hlt hc.1)] at h
      cases hins : repo_create_transfer f.failTransferInsert s (pending_transfer n req) with
      | error e => rw [hins] at h; simp at h
      | ok p =>
      obtain ⟨s1, tr⟩ := p
      rw [hins] at h
      try simp only [] at h
      obtain ⟨-, hs1, htr⟩ := repo_create_transfer_ok_inv hins
      subst htr
      rw [if_pos hty] at h
      try simp only [] at h
      cases hdeb : update_account_balance f.failDebit s1 A.id
          (A.current_balance - req.amount) with
      | error e => rw [hdeb] at h; simp at h
      | ok q0 =>
      obtain ⟨s2, A'⟩ := q0
      rw [hdeb] at h
      try simp only [] at h
      obtain ⟨-, Aa, hfindA, hA', hs2⟩ := update_account_balance_ok_inv hdeb
      cases hcred : update_account_balance f.failCredit s2 B.id
          (B.current_balance + req.amount) with
      | error e => rw [hcred] at h; simp at h
      | ok q =>
      obtain ⟨s3, B'⟩ := q
      rw [hcred] at h
      try simp only [] at h
      obtain ⟨-, Bb, hfindB, hB', hs3⟩ := update_account_balance_ok_inv hcred
      cases hst : update_transfer_status f.failStatusUpdate s3 (pending_transfer n req).id
          TransferStatus.COMPLETED with
      | error e => rw [hst] at h; simp at h
      | ok r =>
      obtain ⟨s4, t'⟩ := r
      rw [hst] at h
      simp only [Prod.mk.injEq, Except.ok.injEq] at h
      obtain ⟨hresp, hs'⟩ := h
      obtain ⟨-, t, hfindT, ht', hs4⟩ := update_transfer_status_ok_inv hst
      have htrans3 : s3.current.transfers = s.current.transfers ++ [pending_transfer n req] := by
        rw [hs3, hs2, hs1]
        simp
      have hfind0 : s3.current.findTransfer (pending_transfer n req).id =
          some (pending_transfer n req) := by
        unfold Database.findTransfer
        rw [htrans3, pending_transfer_id]
        exact find?_id_append_fresh _ _ _ hfresh rfl
      rw [hfind0] at hfindT
      obtain rfl : t = pending_transfer n req := by
        cases hfindT
        rfl
      subst ht'
      refine ⟨hresp.symm, ?_⟩
      rw [← hs', hs4]
      simp only [commit_current]
      exact findTransferByKey_statusmap_append (l := s.current.transfers) htrans3 hkey rfl

/-- If a `create_transfer` call succeeds, its request passed validation. -/
theorem create_transfer_ok_validate {f : Faults} {n : Nat} {req : CreateTransferRequest}
    {s : SessionState} {resp : TransferDetailsResponse} {s1 : SessionState}
    (h : create_transfer f n req s = (.ok resp, s1)) :
    validate_transfer_request req = none := by
  unfold create_transfer at h
  cases hv : validate_transfer_request req with
  | some e => rw [hv] at h; simp at h
  | none => rfl

/-- Resubmission: after any successful `create_transfer`, a second call whose
request carries the same idempotency key (and passes request validation)
returns the very same response and leaves the session state untouched. -/
theorem create_transfer_second_call {f1 f2 : Faults} {n1 n2 : Nat}
    {req1 req2 : CreateTransferRequest} {s s1 : SessionState}
    {resp : TransferDetailsResponse}
    (hkeys : req2.idempotency_key = req1.idempotency_key)
    (hval2 : validate_transfer_request req2 = none)
    (hfresh : ∀ u ∈ s.current.transfers, u.id ≠ n1)
    (h : create_transfer f1 n1 req1 s = (.ok resp, s1)) :
    create_transfer f2 n2 req2 s1 = (.ok resp, s1) := by
  unfold create_transfer at h
  cases hv : validate_transfer_request req1 with
  | some e => rw [hv] at h; simp at h
  | none =>
  rw [hv] at h
  try simp only [] at h
  cases hfound : get_transfer_by_idempotency_key s req1.idempotency_key with
  | some existing =>
    rw [hfound] at h
    simp only [Prod.mk.injEq, Except.ok.injEq] at h
    obtain ⟨hresp, hs1⟩ := h
    unfold create_transfer
    rw [hval2]
    unfold get_transfer_by_idempotency_key
    have hfound' : s.current.findTransferByKey req1.idempotency_key = some existing := hfound
    rw [hkeys, ← hs1]
    simp only [hfound', hresp]
  | none =>
    rw [hfound] at h
    try simp only [] at h
    cases hbody : create_transfer_body f1 n1 req1 s with
    | mk r sb =>
    rw [hbody] at h
    cases r with
    | error e => simp at h
    | ok respb =>
    simp only [Prod.mk.injEq, Except.ok.injEq] at h
    obtain ⟨hresp, hs1⟩ := h
    have hkeynone : ∀ u ∈ s.current.transfers, u.idempotency_key ≠ req1.idempotency_key := by
      have := hfound
      unfold get_transfer_by_idempotency_key at this
      exact (findTransferByKey_eq_none_iff s.current req1.idempotency_key).mp this
    obtain ⟨hrespc, hfindc⟩ := create_transfer_body_ok_inv hkeynone hfresh hbody
    unfold create_transfer
    rw [hval2]
    unfold get_transfer_by_idempotency_key
    rw [hkeys, ← hs1]
    simp only [commit_current]
    simp only [hfindc]
    rw [← hrespc, hresp]

theorem create_transfer_invalid_amount {f : Faults} {n : Nat} {req : CreateTransferRequest}
    {s : SessionState} (h : req.amount ≤ 0) :
    create_transfer f n req s = (.error .invalidAmount, s) := by
  unfold create_transfer validate_transfer_request
  rw [if_pos h]

theorem create_transfer_same_account {f : Faults} {n : Nat} {req : CreateTransferRequest}
    {s : SessionState} (hamt : 0 < req.amount)
    (hsd : req.source_account_id = req.destination_account_id)
    (hty : req.transfer_type ≠ TransferType.INITIAL_DEPOSIT) :
    create_transfer f n req s = (.error .sameAccount, s) := by
  unfold create_transfer validate_transfer_request
  rw [if_neg (not_le.mpr hamt), if_pos ⟨hsd, hty⟩]

theorem create_transfer_insufficient {f : Faults} {n : Nat} {req : CreateTransferRequest}
    {s : SessionState} {A B : AccountDB}
    (hty : req.transfer_type = TransferType.STANDARD)
    (hamt : 0 < req.amount)
    (hne : req.source_account_id ≠ req.destination_account_id)
    (hkey : s.current.findTransferByKey req.idempotency_key = none)
    (hA : s.current.findAccount req.source_account_id = some A)
    (hB : s.current.findAccount req.destination_account_id = some B)
    (hAst : A.status = AccountStatus.ACTIVE)
    (hBst : B.status = AccountStatus.ACTIVE)
    (hlt : A.current_balance < req.amount) :
    create_transfer f n req s =
      (.error (.insufficientFunds A.current_balance req.amount), rollback s) := by
  have hval : validate_transfer_request req = none :=
    validate_transfer_request_none hamt (Or.inl hne)
  have hty2 : TransferType.STANDARD ≠ TransferType.INITIAL_DEPOSIT := by decide
  simp only [create_transfer, create_transfer_body, hval, get_transfer_by_idempotency_key, hkey,
    get_account_ok hA, get_account_ok hB, validate_account_status_active hAst,
    validate_account_status_active hBst, hty, ne_eq, hty2, not_false_eq_true, and_true,
    hlt, if_true, ite_true]

theorem get_account_ok_inv {s : SessionState} {i : Nat} {a : AccountDB}
    (h : get_account s i = .ok a) : s.current.findAccount i = some a := by
  unfold get_account at h
  cases hf : s.current.findAccount i with
  | none => rw [hf] at h; cases h
  | some b => rw [hf] at h; cases h; rfl

theorem Database.nonneg_setAccount {db : Database} {a : AccountDB}
    (h : db.nonneg) (ha : 0 ≤ a.current_balance) : (db.setAccount a).nonneg := by
  intro x hx
  have hx' : x ∈ db.accounts.map (fun b => if b.id == a.id then a else b) := hx
  obtain ⟨b, hb, hbx⟩ := List.mem_map.mp hx'
  by_cases hid : b.id == a.id
  · rw [if_pos hid] at hbx
    rw [← hbx]
    exact ha
  · rw [if_neg hid] at hbx
    rw [← hbx]
    exact h b hb

theorem Database.nonneg_addTransfer {db : Database} {t : TransferDB}
    (h : db.nonneg) : (db.addTransfer t).nonneg := h

theorem Database.nonneg_setTransferStatus {db : Database} {n : Nat} {st : TransferStatus}
    (h : db.nonneg) : (db.setTransferStatus n st).nonneg := h

theorem Database.nonneg_addAccount {db : Database} {a : AccountDB}
    (h : db.nonneg) (ha : 0 ≤ a.current_balance) : (db.addAccount a).nonneg := by
  intro x hx
  have hx' : x ∈ db.accounts ++ [a] := hx
  rcases List.mem_append.mp hx' with hm | hm
  · exact h x hm
  · rw [List.mem_singleton.mp hm]
    exact ha

theorem nonneg_commit {s : SessionState} (h : s.current.nonneg) : (commit s).nonneg := ⟨h, h⟩

theorem nonneg_rollback {s : SessionState} (h : s.committed.nonneg) :
    (rollback s).nonneg := ⟨h, h⟩

theorem create_transfer_body_nonneg {f : Faults} {n : Nat} {req : CreateTransferRequest}
    {s : SessionState} {r : Except Err TransferDetailsResponse} {s' : SessionState}
    (hval : validate_transfer_request req = none)
    (hs : s.nonneg)
    (h : create_transfer_body f n req s = (r, s')) :
    s'.nonneg := by
  obtain ⟨hamt, -⟩ := (validate_transfer_request_none_iff req).mp hval
  unfold create_transfer_body at h
  cases hsrc : get_account s req.source_account_id with
  | error e =>
    rw [hsrc] at h
    try simp only [] at h
    simp only [Prod.mk.injEq] at h
    rw [← h.2]
    exact hs
  | ok A =>
  rw [hsrc] at h
  try simp only [] at h
  cases hdst : get_account s req.destination_account_id with
  | error e =>
    rw [hdst] at h
    try simp only [] at h
    simp only [Prod.mk.injEq] at h
    rw [← h.2]
    exact hs
  | ok B =>
  rw [hdst] at h
  try simp only [] at h
  have hBmem : B ∈ s.current.accounts := findAccount_mem (get_account_ok_inv hdst)
  have hcredit : 0 ≤ B.current_balance + req.amount :=
    add_nonneg (hs.2 B hBmem) (le_of_lt hamt)
  cases hvA : validate_account_status A with
  | some e =>
    rw [hvA] at h
    try simp only [] at h
    simp only [Prod.mk.injEq] at h
    rw [← h.2]
    exact hs
  | none =>
  rw [hvA] at h
  try simp only [] at h
  cases hvB : validate_account_status B with
  | some e =>
    rw [hvB] at h
    try simp only [] at h
    simp only [Prod.mk.injEq] at h
    rw [← h.2]
    exact hs
  | none =>
  rw [hvB] at h
  try simp only [] at h
  by_cases hfund : A.current_balance < req.amount ∧
      req.transfer_type ≠ TransferType.INITIAL_DEPOSIT
  · rw [if_pos hfund] at h
    simp only [Prod.mk.injEq] at h
    rw [← h.2]
    exact hs
  · rw [if_neg hfund] at h
    cases hins : repo_create_transfer f.failTransferInsert s (pending_transfer n req) with
    | error e =>
      rw [hins] at h
      try simp only [] at h
      simp only [Prod.mk.injEq] at h
      rw [← h.2]
      exact hs
    | ok p =>
    obtain ⟨s1, tr⟩ := p
    rw [hins] at h
    try simp only [] at h
    obtain ⟨-, hs1, htr⟩ := repo_create_transfer_ok_inv hins
    subst htr
    have hs1n : s1.nonneg := by
      rw [hs1]
      exact nonneg_commit (Database.nonneg_addTransfer hs.2)
    by_cases hty : req.transfer_type ≠ TransferType.INITIAL_DEPOSIT
    · rw [if_pos hty] at h
      try simp only [] at h
      have hble : req.amount ≤ A.current_balance := by
        by_contra hcon
        exact hfund ⟨lt_of_not_le hcon, hty⟩
      cases hdeb : update_account_balance f.failDebit s1 A.id
          (A.current_balance - req.amount) with
      | error e =>
        rw [hdeb] at h
        try simp only [] at h
        simp only [Prod.mk.injEq] at h
        rw [← h.2]
        exact hs1n
      | ok q =>
      obtain ⟨s2, A'⟩ := q
      rw [hdeb] at h
      try simp only [] at h
      obtain ⟨-, Aa, -, -, hs2⟩ := update_account_balance_ok_inv hdeb
      have hs2n : s2.nonneg := by
        rw [hs2]
        exact nonneg_commit (Database.nonneg_setAccount hs1n.2
          (by simpa using sub_nonneg.mpr hble))
      cases hcred : update_account_balance f.failCredit s2 B.id
          (B.current_balance + req.amount) with
      | error e =>
        rw [hcred] at h
        try simp only [] at h
        simp only [Prod.mk.injEq] at h
        rw [← h.2]
        exact hs2n
      | ok q2 =>
      obtain ⟨s3, B'⟩ := q2
      rw [hcred] at h
      try simp only [] at h
      obtain ⟨-, Bb, -, -, hs3⟩ := update_account_balance_ok_inv hcred
      have hs3n : s3.nonneg := by
        rw [hs3]
        exact nonneg_commit (Database.nonneg_setAccount hs2n.2 (by simpa using hcredit))
      cases hst : update_transfer_status f.failStatusUpdate s3 (pending_transfer n req).id
          TransferStatus.COMPLETED with
      | error e =>
        rw [hst] at h
        try simp only [] at h
        simp only [Prod.mk.injEq] at h
        rw [← h.2]
        exact hs3n
      | ok q3 =>
      obtain ⟨s4, t'⟩ := q3
      rw [hst] at h
      try simp only [] at h
      obtain ⟨-, t, -, -, hs4⟩ := update_transfer_status_ok_inv hst
      simp only [Prod.mk.injEq] at h
      rw [← h.2, hs4]
      exact nonneg_commit (Database.nonneg_setTransferStatus hs3n.2)
    · rw [if_neg hty] at h
      try simp only [] at h
      cases hcred : update_account_balance f.failCredit s1 B.id
          (B.current_balance + req.amount) with
      | error e =>
        rw [hcred] at h
        try simp only [] at h
        simp only [Prod.mk.injEq] at h
        rw [← h.2]
        exact hs1n
      | ok q2 =>
      obtain ⟨s3, B'⟩ := q2
      rw [hcred] at h
      try simp only [] at h
      obtain ⟨-, Bb, -, -, hs3⟩ := update_account_balance_ok_inv hcred
      have hs3n : s3.nonneg := by
        rw [hs3]
        exact nonneg_commit (Database.nonneg_setAccount hs1n.2 (by simpa using hcredit))
      cases hst : update_transfer_status f.failStatusUpdate s3 (pending_transfer n req).id
          TransferStatus.COMPLETED with
      | error e =>
        rw [hst] at h
        try simp only [] at h
        simp only [Prod.mk.injEq] at h
        rw [← h.2]
        exact hs3n
      | ok q3 =>
      obtain ⟨s4, t'⟩ := q3
      rw [hst] at h
      try simp only [] at h
      obtain ⟨-, t, -, -, hs4⟩ := update_transfer_status_ok_inv hst
      simp only [Prod.mk.injEq] at h
      rw [← h.2, hs4]
      exact nonneg_commit (Database.nonneg_setTransferStatus hs3n.2)

theorem create_transfer_nonneg (f : Faults) (n : Nat) (req : CreateTransferRequest)
    (s : SessionState) (hs : s.nonneg) : ((create_transfer f n req s).2).nonneg := by
  unfold create_transfer
  cases hv : validate_transfer_request req with
  | some e => exact hs
  | none =>
  cases hfound : get_transfer_by_idempotency_key s req.idempotency_key with
  | some t => exact hs
  | none =>
  cases hbody : create_transfer_body f n req s with
  | mk r sb =>
  have hsb : sb.nonneg := create_transfer_body_nonneg hv hs hbody
  cases r with
  | ok resp => exact nonneg_commit hsb.2
  | error e => exact nonneg_rollback hsb.1

theorem find?_account_append_fresh (l : List AccountDB) (a : AccountDB)
    (hfresh : ∀ b ∈ l, b.id ≠ a.id) :
    (l ++ [a]).find? (fun b => b.id == a.id) = some a := by
  induction l with
  | nil => simp [List.find?]
  | cons b l ih =>
    rw [List.cons_append, List.find?_cons_of_neg _ (by simpa using hfresh b (by simp))]
    exact ih fun v hv => hfresh v (by simp [hv])

theorem findAccount_addAccount_fresh {db : Database} {a : AccountDB}
    (hfresh : ∀ b ∈ db.accounts, b.id ≠ a.id) :
    (db.addAccount a).findAccount a.id = some a :=
  find?_account_append_fresh db.accounts a hfresh

theorem get_customer_ok {s : SessionState} {c : Nat} (h : c ∈ s.current.customers) :
    get_customer s c = .ok () := by
  unfold get_customer
  simp [h]

theorem create_account_neg_run {w x y z : Nat} {req : CreateAccountRequest} {s : SessionState}
    (h : req.initial_deposit < 0) :
    create_account w x y z req s = (.error .negativeDeposit, s) := by
  unfold create_account
  rw [if_pos h]

theorem create_account_zero_run {w x y z : Nat} {req : CreateAccountRequest} {s : SessionState}
    (hcust : req.customer_id ∈ s.current.customers)
    (hzero : req.initial_deposit = 0) :
    create_account w x y z req s =
      (.ok (toAccountResponse (fresh_account w req.customer_id x)),
       commit { s with current := s.current.addAccount (fresh_account w req.customer_id x) }) := by
  unfold create_account
  rw [if_neg (not_lt.mpr (le_of_eq hzero.symm))]
  rw [get_customer_ok hcust]
  simp only [repo_create_account]
  rw [if_neg (by rw [hzero]; exact lt_irrefl 0)]

theorem create_account_pos_run {w x y z : Nat} {req : CreateAccountRequest} {s : SessionState}
    (hcust : req.customer_id ∈ s.current.customers)
    (hpos : 0 < req.initial_deposit)
    (hfresh : ∀ b ∈ s.current.accounts, b.id ≠ w) :
    ∃ s3, create_account w x y z req s =
        (.ok (toAccountResponse { fresh_account w req.customer_id x with
            current_balance := 0 + req.initial_deposit, version := 2 }), s3) ∧
      s3.current.findAccount w = some { fresh_account w req.customer_id x with
        current_balance := 0 + req.initial_deposit, version := 2 } ∧
      s3.current.transfers = s.current.transfers ++
        [initial_deposit_transfer y w req.initial_deposit z] ∧
      s3.committed = s3.current := by
  unfold create_account
  rw [if_neg (not_lt.mpr (le_of_lt hpos))]
  rw [get_customer_ok hcust]
  simp only [repo_create_account]
  rw [if_pos hpos]
  simp only [repo_create_transfer_ok]
  set a0 : AccountDB := fresh_account w req.customer_id x with ha0
  set s1 : SessionState := commit { s with current := s.current.addAccount a0 } with hs1
  set td : TransferDB := initial_deposit_transfer y a0.id req.initial_deposit z with htd
  set s2 : SessionState := commit { s1 with current := s1.current.addTransfer td } with hs2
  have hfind : s2.current.findAccount a0.id = some a0 := by
    rw [hs2, hs1]
    simp only [commit_current, findAccount_addTransfer]
    exact findAccount_addAccount_fresh hfresh
  rw [update_account_balance_ok (a0.current_balance + req.initial_deposit) hfind]
  simp only []
  refine ⟨_, rfl, ?_, ?_, ?_⟩
  · simp only [commit_current]
    exact findAccount_setAccount_self (c := a0) hfind
  · rw [hs2, hs1]
    simp [htd, ha0, fresh_account]
  · rfl

theorem create_account_nonneg (w x y z : Nat) (req : CreateAccountRequest) (s : SessionState)
    (hs : s.nonneg) : ((create_account w x y z req s).2).nonneg := by
  unfold create_account
  split
  · exact hs
  · split
    · exact hs
    · simp only [repo_create_account]
      have hs1 : (Database.addAccount s.current (fresh_account w req.customer_id x)).nonneg :=
        Database.nonneg_addAccount hs.2 (by simp [fresh_account])
      split
      · simp only [repo_create_transfer_ok]
        split
        · exact nonneg_commit (Database.nonneg_addTransfer hs1)
        · rename_i heq
          obtain ⟨-, a, hfind, ha', hsE⟩ := update_account_balance_ok_inv heq
          rw [hsE]
          refine nonneg_commit (Database.nonneg_setAccount ?_ ?_)
          · exact Database.nonneg_addTransfer hs1
          · have hD : 0 < req.initial_deposit := by assumption
            simp [fresh_account]
            exact le_of_lt hD
      · exact nonneg_commit hs1

/-- C1: a database failure at the destination credit does not abort the whole
transactional block: the rollback leaves the session clean, yet the committed
store keeps the already-committed source debit and the PENDING transfer row. -/
theorem create_transfer_credit_failure_keeps_partial_state :
    create_transfer creditFault 10 reqStd sPair =
      (.error .databaseError,
       { committed := std_db2 10 reqStd sPair acctOne,
         current := std_db2 10 reqStd sPair acctOne,
         log := [std_db1 10 reqStd sPair, std_db2 10 reqStd sPair acctOne] }) ∧
    (std_db2 10 reqStd sPair acctOne).findAccount 1 = some (debited acctOne reqStd.amount) ∧
    (debited acctOne reqStd.amount).current_balance = acctOne.current_balance - reqStd.amount ∧
    (debited acctOne reqStd.amount).version = acctOne.version + 1 ∧
    (std_db2 10 reqStd sPair acctOne).findTransfer 10 = some (pending_transfer 10 reqStd) ∧
    (pending_transfer 10 reqStd).status = TransferStatus.PENDING ∧
    sPair.committed.findAccount 1 = some acctOne ∧
    sPair.committed.findTransfer 10 = none :=
  ⟨rfl, rfl, rfl, rfl, rfl, rfl, rfl, rfl⟩

/-- C2: submitting the same transfer request twice returns the same transfer
response (hence the same transfer id) both times, and the second call leaves
the session state exactly as the first call left it (no balance mutation, no
new insert); moreover whenever a transfer with the request's idempotency key
already exists, a validated `create_transfer` call returns that transfer's
representation as-is, whatever its status, without touching the state. -/
theorem create_transfer_idempotent :
    (∀ (f1 f2 : Faults) (n1 n2 : Nat) (req : CreateTransferRequest) (s s1 : SessionState)
        (resp : TransferDetailsResponse),
      (∀ u ∈ s.current.transfers, u.id ≠ n1) →
      create_transfer f1 n1 req s = (.ok resp, s1) →
      create_transfer f2 n2 req s1 = (.ok resp, s1)) ∧
    (∀ (f : Faults) (n : Nat) (req : CreateTransferRequest) (s : SessionState) (t : TransferDB),
      validate_transfer_request req = none →
      s.current.findTransferByKey req.idempotency_key = some t →
      create_transfer f n req s = (.ok (toResponse t), s)) := by
  constructor
  · intro f1 f2 n1 n2 req s s1 resp hfresh h1
    exact create_transfer_second_call rfl (create_transfer_ok_validate h1) hfresh h1
  · intro f n req s t hval hfound
    unfold create_transfer
    rw [hval]
    try simp only []
    unfold get_transfer_by_idempotency_key
    rw [hfound]

/-- Witness for C2: the duplicate submission of `reqStd` returns the first
call's response and leaves the state unchanged. -/
theorem create_transfer_idempotent_witness :
    (∀ u ∈ sPair.current.transfers, u.id ≠ 10) ∧
    create_transfer noFaults 10 reqStd sPair =
      (.ok (toResponse (completed_transfer 10 reqStd)), sAfterFirst) ∧
    create_transfer noFaults 11 reqStd sAfterFirst =
      (.ok (toResponse (completed_transfer 10 reqStd)), sAfterFirst) :=
  ⟨by decide, rfl,
   create_transfer_idempotent.1 noFaults noFaults 10 11 reqStd sPair sAfterFirst
     (toResponse (completed_transfer 10 reqStd)) (by decide) rfl⟩

/-- C6: request validation runs before any state is touched: a non-positive
amount fails with InvalidAmount and an unchanged state, a STANDARD request
with equal source and destination fails with SameAccount and an unchanged
state, and a request with equal source and destination passes validation
exactly when its type is INITIAL_DEPOSIT (with a positive amount). -/
theorem create_transfer_validation_behavior :
    (∀ (f : Faults) (n : Nat) (req : CreateTransferRequest) (s : SessionState),
      req.amount ≤ 0 → create_transfer f n req s = (.error .invalidAmount, s)) ∧
    (∀ (f : Faults) (n : Nat) (req : CreateTransferRequest) (s : SessionState),
      0 < req.amount → req.source_account_id = req.destination_account_id →
      req.transfer_type = TransferType.STANDARD →
      create_transfer f n req s = (.error .sameAccount, s)) ∧
    (∀ req : CreateTransferRequest, req.source_account_id = req.destination_account_id →
      (validate_transfer_request req = none ↔
        0 < req.amount ∧ req.transfer_type = TransferType.INITIAL_DEPOSIT)) := by
  refine ⟨fun f n req s h => create_transfer_invalid_amount h,
    fun f n req s hamt hsd hty => create_transfer_same_account hamt hsd (by simp [hty]),
    fun req hsd => ?_⟩
  rw [validate_transfer_request_none_iff]
  simp [hsd]

/-- Witness for C6 on the concrete requests `reqNeg`, `reqSame`, `reqSelfDep`. -/
theorem create_transfer_validation_behavior_witness :
    reqNeg.amount ≤ 0 ∧
    create_transfer noFaults 20 reqNeg sPair = (.error .invalidAmount, sPair) ∧
    create_transfer noFaults 21 reqSame sPair = (.error .sameAccount, sPair) ∧
    validate_transfer_request reqSelfDep = none :=
  ⟨by norm_num [reqNeg],
   create_transfer_validation_behavior.1 noFaults 20 reqNeg sPair (by norm_num [reqNeg]),
   create_transfer_validation_behavior.2.1 noFaults 21 reqSame sPair
     (by norm_num [reqSame]) rfl rfl,
   (create_transfer_validation_behavior.2.2 reqSelfDep rfl).mpr
     ⟨by norm_num [reqSelfDep], rfl⟩⟩

/-- C5: for a validated STANDARD request against existing ACTIVE accounts and
a fresh idempotency key, `create_transfer` fails with InsufficientFunds
exactly when the source balance is strictly below the requested amount; the
error carries the available balance and the requested amount, and the failed
call leaves the session state (hence both balances and versions) unchanged. -/
theorem create_transfer_insufficient_funds_iff
    {n : Nat} {req : CreateTransferRequest} {s : SessionState} {A B : AccountDB}
    (hclean : s.current = s.committed)
    (hty : req.transfer_type = TransferType.STANDARD)
    (hamt : 0 < req.amount)
    (hne : req.source_account_id ≠ req.destination_account_id)
    (hkey : s.current.findTransferByKey req.idempotency_key = none)
    (hA : s.current.findAccount req.source_account_id = some A)
    (hB : s.current.findAccount req.destination_account_id = some B)
    (hAst : A.status = AccountStatus.ACTIVE)
    (hBst : B.status = AccountStatus.ACTIVE)
    (hfresh : ∀ t ∈ s.current.transfers, t.id ≠ n) :
    (A.current_balance < req.amount →
      create_transfer noFaults n req s =
        (.error (.insufficientFunds A.current_balance req.amount), s)) ∧
    (req.amount ≤ A.current_balance →
      ∀ av rq, (create_transfer noFaults n req s).1 ≠ .error (.insufficientFunds av rq)) := by
  constructor
  · intro hlt
    have h := @create_transfer_insufficient noFaults n req s A B hty hamt hne hkey hA hB hAst hBst hlt
    rwa [rollback_eq_of_clean hclean] at h
  · intro hge av rq hcontra
    have hrun := create_transfer_std_run hty hamt hne hkey hA hB hAst hBst hge hfresh
    rw [hrun] at hcontra
    simp at hcontra

/-- Witness for C5: the spec's scenario shape — transfer for 500 from an
account holding 100 fails with InsufficientFunds reporting 100 versus 500,
and the state is untouched. -/
theorem create_transfer_insufficient_funds_iff_witness :
    acctOne.current_balance < reqBig.amount ∧
    create_transfer noFaults 30 reqBig sPair =
      (.error (.insufficientFunds acctOne.current_balance reqBig.amount), sPair) :=
  ⟨by norm_num [acctOne, reqBig],
   (@create_transfer_insufficient_funds_iff 30 reqBig sPair acctOne acctTwo rfl rfl
     (by norm_num [reqBig]) (by decide) rfl rfl rfl rfl rfl (by decide)).1
     (by norm_num [acctOne, reqBig])⟩

/-- Counterexample to C3 as stated: `reqInitDep` satisfies every hypothesis of
the claim (amount 4 > 0, fresh key, distinct existing ACTIVE accounts, source
balance 100 ≥ 4) and completes successfully, yet the source balance is left
at 100, not 100 − 4: the claim's debit equation fails for INITIAL_DEPOSIT-typed
requests. -/
theorem create_transfer_initdep_counterexample :
    (create_transfer noFaults 12 reqInitDep sPair).1 =
      .ok (toResponse (completed_transfer 12 reqInitDep)) ∧
    (toResponse (completed_transfer 12 reqInitDep)).status = TransferStatus.COMPLETED ∧
    ((create_transfer noFaults 12 reqInitDep sPair).2).current.findAccount 1 = some acctOne ∧
    acctOne.current_balance ≠ acctOne.current_balance - reqInitDep.amount :=
  ⟨rfl, rfl, rfl, by norm_num [acctOne, reqInitDep]⟩

/-- C3 (amended to STANDARD-typed requests): a valid STANDARD transfer against
distinct existing ACTIVE accounts with sufficient funds completes in COMPLETED
status, debits the source by the amount, credits the destination by the
amount, and conserves the sum of the two balances. -/
theorem create_transfer_standard_balance_equations
    {n : Nat} {req : CreateTransferRequest} {s : SessionState} {A B : AccountDB}
    (hty : req.transfer_type = TransferType.STANDARD)
    (hamt : 0 < req.amount)
    (hne : req.source_account_id ≠ req.destination_account_id)
    (hkey : s.current.findTransferByKey req.idempotency_key = none)
    (hA : s.current.findAccount req.source_account_id = some A)
    (hB : s.current.findAccount req.destination_account_id = some B)
    (hAst : A.status = AccountStatus.ACTIVE)
    (hBst : B.status = AccountStatus.ACTIVE)
    (hfunds : req.amount ≤ A.current_balance)
    (hfresh : ∀ t ∈ s.current.transfers, t.id ≠ n) :
    create_transfer noFaults n req s =
      (.ok (toResponse (completed_transfer n req)),
       { committed := std_db4 n req s A B, current := std_db4 n req s A B,
         log := s.log ++ [std_db1 n req s, std_db2 n req s A, std_db3 n req s A B,
                          std_db4 n req s A B, std_db4 n req s A B] }) ∧
    (toResponse (completed_transfer n req)).status = TransferStatus.COMPLETED ∧
    (std_db4 n req s A B).findAccount req.source_account_id = some (debited A req.amount) ∧
    (std_db4 n req s A B).findAccount req.destination_account_id =
      some (credited B req.amount) ∧
    (debited A req.amount).current_balance = A.current_balance - req.amount ∧
    (credited B req.amount).current_balance = B.current_balance + req.amount ∧
    (debited A req.amount).current_balance + (credited B req.amount).current_balance =
      A.current_balance + B.current_balance :=
  ⟨create_transfer_std_run hty hamt hne hkey hA hB hAst hBst hfunds hfresh, rfl,
   std_db4_findAccount_src hne hA hB, std_db4_findAccount_dst hne hA hB, rfl, rfl,
   by simp only [debited, credited]; ring⟩

/-- Witness for the amended C3 at the concrete seed scenario. -/
theorem create_transfer_standard_balance_equations_witness :
    reqStd.amount ≤ acctOne.current_balance ∧
    create_transfer noFaults 10 reqStd sPair =
      (.ok (toResponse (completed_transfer 10 reqStd)),
       { committed := std_db4 10 reqStd sPair acctOne acctTwo,
         current := std_db4 10 reqStd sPair acctOne acctTwo,
         log := sPair.log ++ [std_db1 10 reqStd sPair, std_db2 10 reqStd sPair acctOne,
                  std_db3 10 reqStd sPair acctOne acctTwo, std_db4 10 reqStd sPair acctOne acctTwo,
                  std_db4 10 reqStd sPair acctOne acctTwo] }) ∧
    (std_db4 10 reqStd sPair acctOne acctTwo).findAccount 1 =
      some (debited acctOne reqStd.amount) ∧
    (std_db4 10 reqStd sPair acctOne acctTwo).findAccount 2 =
      some (credited acctTwo reqStd.amount) ∧
    (debited acctOne reqStd.amount).current_balance +
        (credited acctTwo reqStd.amount).current_balance =
      acctOne.current_balance + acctTwo.current_balance := by
  have h := @create_transfer_standard_balance_equations 10 reqStd sPair acctOne acctTwo
    rfl (by norm_num [reqStd]) (by decide) rfl rfl rfl rfl rfl
    (by norm_num [reqStd, acctOne]) (by decide)
  exact ⟨by norm_num [reqStd, acctOne], h.1, h.2.2.1, h.2.2.2.1, h.2.2.2.2.2.2⟩

/-- C10: an INITIAL_DEPOSIT-typed request between two distinct existing ACTIVE
accounts is accepted by the public transfer operation with no sufficient-funds
requirement; the destination is credited by the amount while the source row —
balance and version alike — is left exactly as it was, so the sum of the two
balances grows by the amount instead of being conserved. -/
theorem create_transfer_initdep_pure_credit
    {n : Nat} {req : CreateTransferRequest} {s : SessionState} {A B : AccountDB}
    (hty : req.transfer_type = TransferType.INITIAL_DEPOSIT)
    (hamt : 0 < req.amount)
    (hne : req.source_account_id ≠ req.destination_account_id)
    (hkey : s.current.findTransferByKey req.idempotency_key = none)
    (hA : s.current.findAccount req.source_account_id = some A)
    (hB : s.current.findAccount req.destination_account_id = some B)
    (hAst : A.status = AccountStatus.ACTIVE)
    (hBst : B.status = AccountStatus.ACTIVE)
    (hfresh : ∀ t ∈ s.current.transfers, t.id ≠ n) :
    create_transfer noFaults n req s =
      (.ok (toResponse (completed_transfer n req)),
       { committed := initdep_db3 n req s B, current := initdep_db3 n req s B,
         log := s.log ++ [std_db1 n req s, initdep_db2 n req s B, initdep_db3 n req s B,
                          initdep_db3 n req s B] }) ∧
    (initdep_db3 n req s B).findAccount req.source_account_id = some A ∧
    (initdep_db3 n req s B).findAccount req.destination_account_id =
      some (credited B req.amount) ∧
    (credited B req.amount).current_balance = B.current_balance + req.amount ∧
    (credited B req.amount).version = B.version + 1 ∧
    A.current_balance + (credited B req.amount).current_balance =
      (A.current_balance + B.current_balance) + req.amount :=
  ⟨create_transfer_initdep_run hty hamt hne hkey hA hB hAst hBst hfresh,
   initdep_db3_findAccount_src hne hA hB, initdep_db3_findAccount_dst hB, rfl, rfl,
   by simp only [credited]; ring⟩

/-- Witness for C10: an INITIAL_DEPOSIT transfer of 500 out of an account
holding only 100 succeeds (the funds check is skipped) and nets to a pure
credit of the destination. -/
theorem create_transfer_initdep_pure_credit_witness :
    acctOne.current_balance < reqInitDepBig.amount ∧
    create_transfer noFaults 40 reqInitDepBig sPair =
      (.ok (toResponse (completed_transfer 40 reqInitDepBig)),
       { committed := initdep_db3 40 reqInitDepBig sPair acctTwo,
         current := initdep_db3 40 reqInitDepBig sPair acctTwo,
         log := sPair.log ++ [std_db1 40 reqInitDepBig sPair,
                  initdep_db2 40 reqInitDepBig sPair acctTwo,
                  initdep_db3 40 reqInitDepBig sPair acctTwo,
                  initdep_db3 40 reqInitDepBig sPair acctTwo] }) ∧
    (initdep_db3 40 reqInitDepBig sPair acctTwo).findAccount 1 = some acctOne ∧
    (initdep_db3 40 reqInitDepBig sPair acctTwo).findAccount 2 =
      some (credited acctTwo reqInitDepBig.amount) := by
  have h := @create_transfer_initdep_pure_credit 40 reqInitDepBig sPair acctOne acctTwo
    rfl (by norm_num [reqInitDepBig]) (by decide) rfl rfl rfl rfl rfl (by decide)
  exact ⟨by norm_num [acctOne, reqInitDepBig], h.1, h.2.1, h.2.2.1⟩

/-- Counterexample to C4 as stated: in the run of `create_account` with a
positive deposit, the committed history shows the synthesized INITIAL_DEPOSIT
transfer entering the store already in COMPLETED status — it is never PENDING
in any committed state, i.e. the deposit is written directly rather than
routed through the transfer workflow. -/
theorem create_account_writes_completed_transfer_directly :
    ((create_account 3 33 13 9 reqAcct sPair).2).log.map
        (fun d => (d.findTransfer 13).map TransferDB.status) =
      [none, some TransferStatus.COMPLETED, some TransferStatus.COMPLETED] ∧
    (initial_deposit_transfer 13 3 reqAcct.initial_deposit 9).status =
      TransferStatus.COMPLETED ∧
    TransferStatus.COMPLETED ≠ TransferStatus.PENDING :=
  ⟨rfl, rfl, by decide⟩

/-- C4 (amended): transfer rows created through the transfer workflow
(`create_transfer`) are first committed in PENDING status and flipped to
COMPLETED only by the final status update, after both balance mutations — the
committed history of a successful STANDARD run shows the row PENDING in the
first three snapshots and COMPLETED thereafter, and no snapshot moves it back;
the INITIAL_DEPOSIT row synthesized by `create_account`, however, is
constructed directly in COMPLETED status and bypasses the workflow. -/
theorem transfer_row_pending_then_completed
    {n : Nat} {req : CreateTransferRequest} {s : SessionState} {A B : AccountDB}
    (hty : req.transfer_type = TransferType.STANDARD)
    (hamt : 0 < req.amount)
    (hne : req.source_account_id ≠ req.destination_account_id)
    (hkey : s.current.findTransferByKey req.idempotency_key = none)
    (hA : s.current.findAccount req.source_account_id = some A)
    (hB : s.current.findAccount req.destination_account_id = some B)
    (hAst : A.status = AccountStatus.ACTIVE)
    (hBst : B.status = AccountStatus.ACTIVE)
    (hfunds : req.amount ≤ A.current_balance)
    (hfresh : ∀ t ∈ s.current.transfers, t.id ≠ n) :
    (∃ s', create_transfer noFaults n req s =
        (.ok (toResponse (completed_transfer n req)), s') ∧
      s'.log = s.log ++ [std_db1 n req s, std_db2 n req s A, std_db3 n req s A B,
                         std_db4 n req s A B, std_db4 n req s A B]) ∧
    (std_db1 n req s).findTransfer n = some (pending_transfer n req) ∧
    (std_db2 n req s A).findTransfer n = some (pending_transfer n req) ∧
    (std_db3 n req s A B).findTransfer n = some (pending_transfer n req) ∧
    (std_db4 n req s A B).findTransfer n = some (completed_transfer n req) ∧
    (pending_transfer n req).status = TransferStatus.PENDING ∧
    (completed_transfer n req).status = TransferStatus.COMPLETED ∧
    (∀ (y a : Nat) (d : ℚ) (k : Nat),
      (initial_deposit_transfer y a d k).status = TransferStatus.COMPLETED) := by
  have h1 : (std_db1 n req s).findTransfer n = some (pending_transfer n req) :=
    findTransfer_addTransfer_fresh hfresh rfl
  have h3 : (std_db3 n req s A B).findTransfer n = some (pending_transfer n req) := h1
  refine ⟨⟨_, create_transfer_std_run hty hamt hne hkey hA hB hAst hBst hfunds hfresh, rfl⟩,
    h1, h1, h3, ?_, rfl, rfl, fun y a d k => rfl⟩
  exact findTransfer_setTransferStatus_self h3

/-- Witness for the amended C4 at the concrete seed scenario. -/
theorem transfer_row_pending_then_completed_witness :
    (std_db1 10 reqStd sPair).findTransfer 10 = some (pending_transfer 10 reqStd) ∧
    (std_db4 10 reqStd sPair acctOne acctTwo).findTransfer 10 =
      some (completed_transfer 10 reqStd) ∧
    (pending_transfer 10 reqStd).status = TransferStatus.PENDING ∧
    (completed_transfer 10 reqStd).status = TransferStatus.COMPLETED := by
  have h := @transfer_row_pending_then_completed 10 reqStd sPair acctOne acctTwo
    rfl (by norm_num [reqStd]) (by decide) rfl rfl rfl rfl rfl
    (by norm_num [reqStd, acctOne]) (by decide)
  exact ⟨h.2.1, h.2.2.2.2.1, h.2.2.2.2.2.1, h.2.2.2.2.2.2.1⟩

/-- Counterexample to C9 as stated: two requests built with the defaulted
idempotency key share one key, the first succeeds, but a second defaulted
request whose source equals its destination fails with SameAccount — it does
not short-circuit on the first call's transfer, so "regardless of its source,
destination, or amount" is too strong. -/
theorem default_key_second_call_not_always_short_circuited :
    (request_with_defaults 1 2 30).idempotency_key =
      (request_with_defaults 2 2 10).idempotency_key ∧
    (create_transfer noFaults 10 (request_with_defaults 1 2 30) sPair).1 =
      .ok (toResponse (completed_transfer 10 (request_with_defaults 1 2 30))) ∧
    create_transfer noFaults 11 (request_with_defaults 2 2 10) sAfterDefaults =
      (.error .sameAccount, sAfterDefaults) ∧
    ((create_transfer noFaults 11 (request_with_defaults 2 2 10) sAfterDefaults).1).isOk =
      false :=
  ⟨rfl, rfl, rfl, rfl⟩

/-- C9 (amended): the pydantic default of `idempotency_key` is a single value
fixed at module load, so any two requests built with the defaults share it;
consequently, after a first successful defaulted submission, any second
defaulted request that passes request validation — whatever its source,
destination, or amount — short-circuits on the first call's transfer and
mutates nothing. -/
theorem default_idempotency_key_shared
    {f1 f2 : Faults} {n1 n2 src1 dst1 src2 dst2 : Nat} {a1 a2 : ℚ}
    {s s1 : SessionState} {resp : TransferDetailsResponse}
    (hval2 : validate_transfer_request (request_with_defaults src2 dst2 a2) = none)
    (hfresh : ∀ u ∈ s.current.transfers, u.id ≠ n1)
    (h1 : create_transfer f1 n1 (request_with_defaults src1 dst1 a1) s = (.ok resp, s1)) :
    (request_with_defaults src1 dst1 a1).idempotency_key =
      (request_with_defaults src2 dst2 a2).idempotency_key ∧
    create_transfer f2 n2 (request_with_defaults src2 dst2 a2) s1 = (.ok resp, s1) :=
  ⟨rfl, @create_transfer_second_call f1 f2 n1 n2 (request_with_defaults src1 dst1 a1)
    (request_with_defaults src2 dst2 a2) s s1 resp rfl hval2 hfresh h1⟩

/-- Witness for the amended C9: a second defaulted request with different
source, destination and amount short-circuits on the first call's transfer. -/
theorem default_idempotency_key_shared_witness :
    validate_transfer_request (request_with_defaults 2 1 10) = none ∧
    create_transfer noFaults 10 (request_with_defaults 1 2 30) sPair =
      (.ok (toResponse (completed_transfer 10 (request_with_defaults 1 2 30))),
       sAfterDefaults) ∧
    create_transfer noFaults 11 (request_with_defaults 2 1 10) sAfterDefaults =
      (.ok (toResponse (completed_transfer 10 (request_with_defaults 1 2 30))),
       sAfterDefaults) :=
  ⟨by decide, rfl,
   (@default_idempotency_key_shared noFaults noFaults 10 11 1 2 2 1 30 10 sPair sAfterDefaults
     (toResponse (completed_transfer 10 (request_with_defaults 1 2 30)))
     (by decide) (by decide) rfl).2⟩

/-- C7: the locked balance update writes the requested balance and increments
the account's version by exactly 1 (so versions are strictly monotonic over
an account's mutation history), and both core write operations preserve the
non-negative-balance invariant of every account in the committed store and in
the session view, for every request and every fault configuration. -/
theorem balance_invariants :
    (∀ (s : SessionState) (i : Nat) (nb : ℚ) (a : AccountDB),
      s.current.findAccount i = some a →
      update_account_balance false s i nb =
        .ok (commit { s with current := s.current.setAccount (bumped a nb) }, bumped a nb) ∧
      (bumped a nb).version = a.version + 1 ∧
      (commit { s with current := s.current.setAccount (bumped a nb) }).current.findAccount i =
        some (bumped a nb)) ∧
    (∀ (f : Faults) (n : Nat) (req : CreateTransferRequest) (s : SessionState),
      s.nonneg → ((create_transfer f n req s).2).nonneg) ∧
    (∀ (w x y z : Nat) (req : CreateAccountRequest) (s : SessionState),
      s.nonneg → ((create_account w x y z req s).2).nonneg) := by
  refine ⟨fun s i nb a h => ⟨update_account_balance_ok nb h, rfl, ?_⟩,
    create_transfer_nonneg, create_account_nonneg⟩
  simp only [commit_current]
  have h2 : s.current.findAccount (bumped a nb).id = some a := by
    show s.current.findAccount a.id = some a
    rw [findAccount_id h]
    exact h
  have h3 := findAccount_setAccount_self (c := a) h2
  have hid : (bumped a nb).id = i := by
    show a.id = i
    exact findAccount_id h
  rw [hid] at h3
  exact h3

/-- Witness for C7: the locked update on account 1 bumps its version from 1
to 2, and the concrete transfer and account-creation runs keep every stored
balance non-negative. -/
theorem balance_invariants_witness :
    sPair.current.findAccount 1 = some acctOne ∧
    update_account_balance false sPair 1 80 =
      .ok (commit { sPair with current := sPair.current.setAccount (bumped acctOne 80) },
           bumped acctOne 80) ∧
    (bumped acctOne 80).version = acctOne.version + 1 ∧
    SessionState.nonneg sPair ∧
    ((create_transfer noFaults 10 reqStd sPair).2).committed.nonneg ∧
    ((create_transfer noFaults 10 reqStd sPair).2).current.nonneg ∧
    ((create_account 3 33 13 9 reqAcct sPair).2).committed.nonneg ∧
    ((create_account 3 33 13 9 reqAcct sPair).2).current.nonneg := by
  obtain ⟨h1, h2, -⟩ := balance_invariants.1 sPair 1 80 acctOne rfl
  have h4 := balance_invariants.2.1 noFaults 10 reqStd sPair ⟨by decide, by decide⟩
  have h5 := balance_invariants.2.2 3 33 13 9 reqAcct sPair ⟨by decide, by decide⟩
  exact ⟨rfl, h1, h2, ⟨by decide, by decide⟩, h4.1, h4.2, h5.1, h5.2⟩

/-- C8: account creation fails with NegativeDeposit and leaves the store
untouched whenever the deposit is negative — with no customer lookup, so the
negative-deposit check precedes the customer check; with a zero deposit it
creates the account with balance 0, version 1, status ACTIVE and no transfer
row; with a positive deposit D it additionally writes a self-referential
INITIAL_DEPOSIT transfer of amount D and leaves the account at balance D. -/
theorem create_account_behavior :
    (∀ (w x y z : Nat) (req : CreateAccountRequest) (s : SessionState),
      req.initial_deposit < 0 → create_account w x y z req s = (.error .negativeDeposit, s)) ∧
    (∀ (w x y z : Nat) (req : CreateAccountRequest) (s : SessionState),
      req.customer_id ∈ s.current.customers → req.initial_deposit = 0 →
      create_account w x y z req s =
        (.ok (toAccountResponse (fresh_account w req.customer_id x)),
         commit { s with current := s.current.addAccount (fresh_account w req.customer_id x) }) ∧
      (fresh_account w req.customer_id x).current_balance = 0 ∧
      (fresh_account w req.customer_id x).version = 1 ∧
      (fresh_account w req.customer_id x).status = AccountStatus.ACTIVE ∧
      (s.current.addAccount (fresh_account w req.customer_id x)).transfers =
        s.current.transfers) ∧
    (∀ (w x y z : Nat) (req : CreateAccountRequest) (s : SessionState),
      req.customer_id ∈ s.current.customers → 0 < req.initial_deposit →
      (∀ b ∈ s.current.accounts, b.id ≠ w) →
      ∃ s3, create_account w x y z req s =
          (.ok (toAccountResponse { fresh_account w req.customer_id x with
              current_balance := req.initial_deposit, version := 2 }), s3) ∧
        s3.current.findAccount w = some { fresh_account w req.customer_id x with
          current_balance := req.initial_deposit, version := 2 } ∧
        s3.current.transfers = s.current.transfers ++
          [initial_deposit_transfer y w req.initial_deposit z] ∧
        (initial_deposit_transfer y w req.initial_deposit z).source_account_id = w ∧
        (initial_deposit_transfer y w req.initial_deposit z).destination_account_id = w ∧
        (initial_deposit_transfer y w req.initial_deposit z).amount = req.initial_deposit) := by
  refine ⟨fun w x y z req s h => create_account_neg_run h,
    fun w x y z req s hc h0 => ⟨create_account_zero_run hc h0, rfl, rfl, rfl, rfl⟩,
    fun w x y z req s hc hp hf => ?_⟩
  obtain ⟨s3, h1, h2, h3, h4⟩ := create_account_pos_run hc hp hf
  rw [zero_add] at h1 h2
  exact ⟨s3, h1, h2, h3, rfl, rfl, rfl⟩

/-- Witness for C8 on the concrete requests `reqAcctNeg`, `reqAcctZero`,
`reqAcct`. -/
theorem create_account_behavior_witness :
    reqAcctNeg.initial_deposit < 0 ∧
    create_account 3 33 13 9 reqAcctNeg sPair = (.error .negativeDeposit, sPair) ∧
    create_account 4 44 14 16 reqAcctZero sPair =
      (.ok (toAccountResponse (fresh_account 4 reqAcctZero.customer_id 44)),
       commit { sPair with current :=
         sPair.current.addAccount (fresh_account 4 reqAcctZero.customer_id 44) }) ∧
    (create_account 3 33 13 9 reqAcct sPair).1 =
      .ok (toAccountResponse { fresh_account 3 reqAcct.customer_id 33 with
        current_balance := reqAcct.initial_deposit, version := 2 }) ∧
    ((create_account 3 33 13 9 reqAcct sPair).2).current.findAccount 3 =
      some { fresh_account 3 reqAcct.customer_id 33 with
        current_balance := reqAcct.initial_deposit, version := 2 } := by
  obtain ⟨s3, h1, h2, -, -, -, -⟩ := create_account_behavior.2.2 3 33 13 9 reqAcct sPair
    (by decide) (by norm_num [reqAcct]) (by decide)
  refine ⟨by norm_num [reqAcctNeg],
    create_account_behavior.1 3 33 13 9 reqAcctNeg sPair (by norm_num [reqAcctNeg]),
    (create_account_behavior.2.1 4 44 14 16 reqAcctZero sPair (by decide)
      (by norm_num [reqAcctZero])).1, ?_, ?_⟩
  · rw [h1]
  · rw [h1]
    exact h2

end Banking
